import Mathlib

/-!
Verification development for the Tuna (i3PlusPlus-Carbide) motion-planning and
thermal-safety core.  The definitions below are shallow embeddings of the C++
in `src/Tuna/planner.h`, `src/Tuna/Marlin_main.cpp` and
`src/Tuna/thermal/thermal.cpp`: C++ `float` becomes `ℚ` (the spec makes no
floating-point precision guarantee), machine integers become `ℕ`/`ℤ` with
explicit reduction modulo `2^24` where a store into a `uint24` field could
wrap, bit-set flags become a structure of `Bool`s, and the file-scope mutable
singletons become explicit state records threaded through the functions.
-/

namespace Tuna

/-- `BLOCK_BUFFER_SIZE`.  Modelled from the spec: the value lives in a
configuration header that is not part of the sources; the spec fixes the
capacity as a compile-time power of two and its end-to-end scenarios use
`CAP = 16`.  For a power of two, the C `BLOCK_MOD(n) = n & (SIZE-1)`
equals `n % SIZE`. -/
def BLOCK_BUFFER_SIZE : ℕ := 16

instance : NeZero BLOCK_BUFFER_SIZE := ⟨by decide⟩

/-- `#define BLOCK_MOD(n) ((n)&(BLOCK_BUFFER_SIZE-1))` (planner.h:132). -/
def BLOCK_MOD (n : ℕ) : ℕ := n % BLOCK_BUFFER_SIZE

/-- The `flag` bit-set of `block_t` (planner.h:42-67), one `Bool` per
`BlockFlagBit`. -/
structure BlockFlags where
  recalculate : Bool
  nominal_length : Bool
  start_from_full_halt : Bool
  busy : Bool
  arc : Bool
  deriving Repr, DecidableEq

/-- `block->flag = 0` — all bits cleared. -/
def BlockFlags.clear : BlockFlags :=
  ⟨false, false, false, false, false⟩

/-- `struct block_t` (planner.h:78-130).  `uint24` fields are `ℕ`
(kept `< 2^24` by explicit reduction at each store), `float` fields are
`ℚ`. -/
structure block_t where
  flag : BlockFlags
  steps : Fin 4 → ℕ
  step_event_count : ℕ
  accelerate_until : ℕ
  decelerate_after : ℕ
  acceleration_rate : ℕ
  direction_bits : Fin 4 → Bool
  nominal_speed : ℚ
  entry_speed : ℚ
  max_entry_speed : ℚ
  millimeters : ℚ
  acceleration : ℚ
  nominal_rate : ℕ
  initial_rate : ℕ
  final_rate : ℕ
  acceleration_steps_per_s2 : ℕ
  deriving DecidableEq

/-- Planner singleton state (planner.h:141-209): the ring of blocks, the
head/tail indices, the integer step position and the previous-segment
speed data used for junction jerk.  `previous_safe_speed` is the
function-local `static` in `_buffer_line` (Marlin_main.cpp:5246). -/
structure PlannerState where
  block_buffer : Fin BLOCK_BUFFER_SIZE → block_t
  block_buffer_head : Fin BLOCK_BUFFER_SIZE
  block_buffer_tail : Fin BLOCK_BUFFER_SIZE
  position : Fin 4 → ℕ
  previous_speed : Fin 4 → ℚ
  previous_nominal_speed : ℚ
  previous_safe_speed : ℚ

namespace Planner

/-- `movesplanned()` (planner.h:258): `BLOCK_MOD(head - tail + SIZE)` in
`uint8` arithmetic; for `head, tail < 16` this is
`(head + 16 - tail) % 16`. -/
def movesplanned (s : PlannerState) : ℕ :=
  BLOCK_MOD (s.block_buffer_head.val + BLOCK_BUFFER_SIZE - s.block_buffer_tail.val)

/-- `is_full()` (planner.h:260). -/
def is_full (s : PlannerState) : Bool :=
  s.block_buffer_tail.val = BLOCK_MOD (s.block_buffer_head.val + 1)

/-- `blocks_queued()` (planner.h:386): `head != tail`. -/
def blocks_queued (s : PlannerState) : Bool :=
  s.block_buffer_head ≠ s.block_buffer_tail

/-- `next_block_index` (planner.h:440): `BLOCK_MOD(i + 1)`, i.e. `+1` in
`Fin BLOCK_BUFFER_SIZE`. -/
def next_block_index (i : Fin BLOCK_BUFFER_SIZE) : Fin BLOCK_BUFFER_SIZE :=
  i + 1

/-- `discard_current_block()` (planner.h:392-395). -/
def discard_current_block (s : PlannerState) : PlannerState :=
  if blocks_queued s then
    { s with block_buffer_tail := next_block_index s.block_buffer_tail }
  else s

/-- `SBI(block->flag, BLOCK_BIT_BUSY)` (planner.h:417). -/
def setBusy (b : block_t) : block_t :=
  { b with flag := { b.flag with busy := true } }

/-- `get_current_block()` (planner.h:401-426).  Returns the block the
stepper may run (with its BUSY bit set, mirrored into the ring), or
`none` when the buffer is empty or a RECALCULATE bit makes the tail
region unsafe to execute. -/
def get_current_block (s : PlannerState) : Option block_t × PlannerState :=
  if blocks_queued s then
    let block := s.block_buffer s.block_buffer_tail
    let unsafeToRun : Bool :=
      if 1 < movesplanned s then
        let next := s.block_buffer (next_block_index s.block_buffer_tail)
        block.flag.recalculate || next.flag.recalculate
      else
        block.flag.recalculate
    if unsafeToRun then (none, s)
    else
      (some (setBusy block),
       { s with block_buffer :=
          Function.update s.block_buffer s.block_buffer_tail (setBusy block) })
  else (none, s)

end Planner

/-- Reduction of a value stored into a `uint24` field (the custom 24-bit
integer type used throughout the source). -/
def store24 (x : ℤ) : ℕ := (x % 2 ^ 24).toNat

/-- `#define MINIMAL_STEP_RATE 120` (Marlin_main.cpp:4076). -/
def MINIMAL_STEP_RATE : ℤ := 120

/-- CPU clock used in `acceleration_rate` (Marlin_main.cpp:4115).  The value
comes from the board configuration header, which is not among the sources;
16 MHz is the AVR clock the ISR comment (thermal.cpp:666) computes with. -/
def F_CPU : ℕ := 16000000

/-- Model of the C `sqrtf` over the rational embedding of `float`: exact on
rationals whose numerator and denominator are perfect squares (the only
points at which any proof below evaluates it), an under-approximation
elsewhere, and `0` on negative inputs. -/
def SQRT (q : ℚ) : ℚ := (Nat.sqrt q.num.toNat : ℚ) / (Nat.sqrt q.den : ℚ)

namespace Planner

/-- `estimate_acceleration_distance` (planner.h:447-450). -/
def estimate_acceleration_distance (initial_rate target_rate accel : ℚ) : ℚ :=
  if accel = 0 then 0
  else (target_rate ^ 2 - initial_rate ^ 2) / (accel * 2)

/-- `intersection_distance` (planner.h:460-463). -/
def intersection_distance (initial_rate final_rate accel distance : ℚ) : ℚ :=
  if accel = 0 then 0
  else (accel * 2 * distance - initial_rate ^ 2 + final_rate ^ 2) / (accel * 4)

/-- `max_allowable_speed` (planner.h:470-472). -/
def max_allowable_speed (accel target_velocity distance : ℚ) : ℚ :=
  SQRT (target_velocity ^ 2 - 2 * accel * distance)

/-- `calculate_trapezoid_for_block` (Marlin_main.cpp:4082-4132).  The two
speeds are in the same unit as the step rates (the callers at
Marlin_main.cpp:4316/4324 pass entry speeds directly); the `uint32`
conversions `CEIL(entry_speed)` are modelled on `ℤ` (exact for the
non-negative speeds the callers pass).  When the block's BUSY bit is set
the critical section skips the commit and the block is unchanged. -/
def calculate_trapezoid_for_block (block : block_t)
    (entry_speed next_entry_speed : ℚ) : block_t :=
  let initial_rate : ℤ := max ⌈entry_speed⌉ MINIMAL_STEP_RATE
  let final_rate : ℤ := max ⌈next_entry_speed⌉ MINIMAL_STEP_RATE
  let accel : ℤ := block.acceleration_steps_per_s2
  let accelerate_steps : ℤ :=
    ⌈estimate_acceleration_distance initial_rate block.nominal_rate accel⌉
  let decelerate_steps : ℤ :=
    ⌊estimate_acceleration_distance block.nominal_rate final_rate (-accel)⌋
  let plateau_steps : ℤ :=
    (block.step_event_count : ℤ) - accelerate_steps - decelerate_steps
  let accelerate_steps' : ℤ :=
    if plateau_steps < 0 then
      min (max ⌈intersection_distance initial_rate final_rate accel
                  block.step_event_count⌉ 0)
        (block.step_event_count : ℤ)
    else accelerate_steps
  let plateau_steps' : ℤ := if plateau_steps < 0 then 0 else plateau_steps
  if block.flag.busy then block
  else
    { block with
      accelerate_until := store24 accelerate_steps'
      decelerate_after := store24 (accelerate_steps' + plateau_steps')
      initial_rate := store24 initial_rate
      final_rate := store24 final_rate
      acceleration_rate :=
        store24 ⌊(accel : ℚ) * 16777216 / ((F_CPU : ℚ) * (1 / 8))⌋ }

end Planner

/-! Concrete planner states used by witnesses and counterexamples. -/

/-- A block with every field zeroed, as after `block->flag = 0` and zero
step counts. -/
def zeroBlock : block_t :=
  { flag := BlockFlags.clear, steps := fun _ => 0, step_event_count := 0,
    accelerate_until := 0, decelerate_after := 0, acceleration_rate := 0,
    direction_bits := fun _ => false, nominal_speed := 0, entry_speed := 0,
    max_entry_speed := 0, millimeters := 0, acceleration := 0,
    nominal_rate := 0, initial_rate := 0, final_rate := 0,
    acceleration_steps_per_s2 := 0 }

/-- `zeroBlock` with the RECALCULATE bit set. -/
def recalcBlock : block_t :=
  { zeroBlock with flag := { BlockFlags.clear with recalculate := true } }

/-- Planner state with an empty ring (`head = tail = 0`). -/
def emptyPlanner : PlannerState :=
  { block_buffer := fun _ => zeroBlock, block_buffer_head := 0,
    block_buffer_tail := 0, position := fun _ => 0,
    previous_speed := fun _ => 0, previous_nominal_speed := 0,
    previous_safe_speed := 0 }

/-- One queued block (head 1, tail 0), no RECALCULATE bit pending. -/
def onePlanner : PlannerState :=
  { emptyPlanner with block_buffer_head := 1 }

/-- One queued block whose RECALCULATE bit is still set. -/
def onePlannerRecalc : PlannerState :=
  { emptyPlanner with
    block_buffer := fun _ => recalcBlock
    block_buffer_head := 1 }

/-- Two queued blocks; the tail block is clear but its successor still has
RECALCULATE set. -/
def twoPlannerRecalcNext : PlannerState :=
  { emptyPlanner with
    block_buffer := fun i => if i.val = 1 then recalcBlock else zeroBlock
    block_buffer_head := 2 }

namespace Planner

lemma movesplanned_eq_zero_iff (s : PlannerState) :
    movesplanned s = 0 ↔ s.block_buffer_head = s.block_buffer_tail := by
  have h1 := s.block_buffer_head.isLt
  have h2 := s.block_buffer_tail.isLt
  rw [Fin.ext_iff]
  unfold movesplanned BLOCK_MOD
  unfold BLOCK_BUFFER_SIZE at *
  omega

/-- Claim C10: `discard_current_block` advances the tail index by one modulo
the buffer capacity when the buffer is non-empty (`head ≠ tail`), leaving
every other component of the planner state alone; on an empty buffer it is
a no-op. -/
theorem discard_current_block_spec (s : PlannerState) :
    (s.block_buffer_head ≠ s.block_buffer_tail →
      (discard_current_block s).block_buffer_tail.val =
          (s.block_buffer_tail.val + 1) % BLOCK_BUFFER_SIZE ∧
        (discard_current_block s).block_buffer_head = s.block_buffer_head ∧
        (discard_current_block s).block_buffer = s.block_buffer ∧
        (discard_current_block s).position = s.position) ∧
    (s.block_buffer_head = s.block_buffer_tail →
      discard_current_block s = s) := by
  constructor
  · intro h
    have hb : blocks_queued s = true := by simp [blocks_queued, h]
    unfold discard_current_block
    rw [if_pos hb]
    refine ⟨?_, rfl, rfl, rfl⟩
    simp [next_block_index, Fin.add_def, BLOCK_BUFFER_SIZE]
  · intro h
    have hb : ¬ blocks_queued s = true := by simp [blocks_queued, h]
    unfold discard_current_block
    rw [if_neg hb]

/-- Witness for `discard_current_block_spec`: on a state with one queued
block the tail advances from 0 to 1; on the empty state nothing changes. -/
theorem discard_current_block_spec_witness :
    ((discard_current_block onePlanner).block_buffer_tail.val =
        (onePlanner.block_buffer_tail.val + 1) % BLOCK_BUFFER_SIZE ∧
      (discard_current_block onePlanner).block_buffer_head =
        onePlanner.block_buffer_head ∧
      (discard_current_block onePlanner).block_buffer =
        onePlanner.block_buffer ∧
      (discard_current_block onePlanner).position = onePlanner.position) ∧
    discard_current_block emptyPlanner = emptyPlanner :=
  ⟨(discard_current_block_spec onePlanner).1 (by decide),
   (discard_current_block_spec emptyPlanner).2 rfl⟩

/-- Claim C3: `get_current_block` returns `none` on an empty buffer, `none`
while the tail block (or, with more than one move queued, its successor)
still has RECALCULATE set, and otherwise hands out the tail block with its
BUSY bit set, mirroring the bit into the ring. -/
theorem get_current_block_spec (s : PlannerState) :
    (movesplanned s = 0 → get_current_block s = (none, s)) ∧
    ((s.block_buffer s.block_buffer_tail).flag.recalculate = true →
      get_current_block s = (none, s)) ∧
    (1 < movesplanned s →
      (s.block_buffer
          (next_block_index s.block_buffer_tail)).flag.recalculate = true →
      get_current_block s = (none, s)) ∧
    (movesplanned s ≠ 0 →
      (s.block_buffer s.block_buffer_tail).flag.recalculate = false →
      (1 < movesplanned s →
        (s.block_buffer
            (next_block_index s.block_buffer_tail)).flag.recalculate = false) →
      get_current_block s =
        (some (setBusy (s.block_buffer s.block_buffer_tail)),
         { s with block_buffer := Function.update s.block_buffer s.block_buffer_tail (setBusy (s.block_buffer s.block_buffer_tail)) })) := by
  refine ⟨?_, ?_, ?_, ?_⟩
  · intro h
    rw [movesplanned_eq_zero_iff] at h
    unfold get_current_block blocks_queued
    simp [h]
  · intro h
    unfold get_current_block blocks_queued
    split
    · simp only [h]
      simp
    · rfl
  · intro hm h
    unfold get_current_block blocks_queued
    split
    · simp only [if_pos hm, h, Bool.or_true, if_true]
    · rfl
  · intro hm hr hn
    have hne : s.block_buffer_head ≠ s.block_buffer_tail := by
      intro h
      exact hm ((movesplanned_eq_zero_iff s).mpr h)
    have hb : blocks_queued s = true := by simp [blocks_queued, hne]
    unfold get_current_block
    rw [if_pos hb]
    by_cases h1 : 1 < movesplanned s
    · simp [if_pos h1, hr, hn h1]
    · simp [if_neg h1, hr]

/-- Witness for `get_current_block_spec`: the four cases at concrete ring
states. -/
theorem get_current_block_spec_witness :
    get_current_block emptyPlanner = (none, emptyPlanner) ∧
    get_current_block onePlannerRecalc = (none, onePlannerRecalc) ∧
    get_current_block twoPlannerRecalcNext = (none, twoPlannerRecalcNext) ∧
    (get_current_block onePlanner).1 = some (setBusy zeroBlock) :=
  ⟨(get_current_block_spec emptyPlanner).1 rfl,
   (get_current_block_spec onePlannerRecalc).2.1 rfl,
   (get_current_block_spec twoPlannerRecalcNext).2.2.1 (by decide) rfl,
   congrArg Prod.fst
     ((get_current_block_spec onePlanner).2.2.2 (by decide) rfl
       (fun h => absurd h (by decide)))⟩

end Planner

lemma store24_le_store24 {x y : ℤ} (h0 : 0 ≤ x) (hxy : x ≤ y)
    (hy : y < 2 ^ 24) : store24 x ≤ store24 y := by
  have h2 : ((2 : ℤ)) ^ 24 = 16777216 := by norm_num
  unfold store24
  rw [h2] at hy ⊢
  omega

lemma store24_le_nat {x : ℤ} {m : ℕ} (h0 : 0 ≤ x) (hx : x ≤ (m : ℤ))
    (hm : m < 2 ^ 24) : store24 x ≤ m := by
  have h2 : ((2 : ℤ)) ^ 24 = 16777216 := by norm_num
  have h2n : (2 : ℕ) ^ 24 = 16777216 := by norm_num
  unfold store24
  rw [h2]
  rw [h2n] at hm
  omega

lemma nat_le_store24 {c : ℕ} {x : ℤ} (hc : (c : ℤ) ≤ x) (hx : x < 2 ^ 24) :
    c ≤ store24 x := by
  have h2 : ((2 : ℤ)) ^ 24 = 16777216 := by norm_num
  unfold store24
  rw [h2]
  rw [h2] at hx
  omega

lemma store24_coe {x : ℤ} (h0 : 0 ≤ x) (hx : x < 2 ^ 24) :
    ((store24 x : ℕ) : ℤ) = x := by
  have h2 : ((2 : ℤ)) ^ 24 = 16777216 := by norm_num
  unfold store24
  rw [h2]
  rw [h2] at hx
  omega

/-- Block used by the claim-C5 witness: a short block (10 step events) with
a high nominal rate, so that the trapezoid has no plateau. -/
def shortSteepBlock : block_t :=
  { zeroBlock with
    step_event_count := 10
    nominal_rate := 1000
    acceleration_steps_per_s2 := 2 }

/-- Block used by the claim-C4 counterexample: 1000 step events, nominal
rate 200 steps/s, acceleration 2 steps/s², not busy. -/
def wideExitBlock : block_t :=
  { zeroBlock with
    step_event_count := 1000
    nominal_rate := 200
    acceleration_steps_per_s2 := 2 }

namespace Planner

/-- Claim C4 counterexample: handing the trapezoid generator an exit speed
above the nominal rate (entry 100, exit 400 on `wideExitBlock`) commits a
block with `decelerate_after = 31000 > 1000 = step_event_count`: the
deceleration estimate is the negative floor −30000, and the plateau branch
adds it back into `decelerate_after`. -/
theorem trapezoid_invariant_counterexample :
    ¬ ((calculate_trapezoid_for_block wideExitBlock 100 400).decelerate_after ≤
        (calculate_trapezoid_for_block wideExitBlock 100 400).step_event_count) := by
  norm_num [calculate_trapezoid_for_block, estimate_acceleration_distance,
    intersection_distance, store24, MINIMAL_STEP_RATE, wideExitBlock,
    zeroBlock, BlockFlags.clear]

/-- Claim C4 (amended): provided the clamped initial and final step rates do
not exceed the block's `nominal_rate` — which is how the planner calls the
generator, since entry and exit speeds never exceed the nominal speed — the
committed block satisfies
`accelerate_until ≤ decelerate_after ≤ step_event_count` and both
`initial_rate` and `final_rate` are at least `MINIMAL_STEP_RATE = 120`
(`accelerate_until` is a `uint24`, hence trivially `≥ 0`). -/
theorem calculate_trapezoid_for_block_invariant (block : block_t)
    (entry next_entry : ℚ)
    (hbusy : block.flag.busy = false)
    (hsec : block.step_event_count < 2 ^ 24)
    (hnr : block.nominal_rate < 2 ^ 24)
    (hi : max ⌈entry⌉ MINIMAL_STEP_RATE ≤ (block.nominal_rate : ℤ))
    (hf : max ⌈next_entry⌉ MINIMAL_STEP_RATE ≤ (block.nominal_rate : ℤ)) :
    120 ≤ (calculate_trapezoid_for_block block entry next_entry).initial_rate ∧
    120 ≤ (calculate_trapezoid_for_block block entry next_entry).final_rate ∧
    (calculate_trapezoid_for_block block entry next_entry).accelerate_until ≤
      (calculate_trapezoid_for_block block entry next_entry).decelerate_after ∧
    (calculate_trapezoid_for_block block entry next_entry).decelerate_after ≤
      (calculate_trapezoid_for_block block entry next_entry).step_event_count := by
  simp only [MINIMAL_STEP_RATE] at hi hf
  simp only [calculate_trapezoid_for_block, hbusy, Bool.false_eq_true, if_false,
    MINIMAL_STEP_RATE]
  set i : ℤ := ⌈entry⌉ ⊔ 120 with hidef
  set f : ℤ := ⌈next_entry⌉ ⊔ 120 with hfdef
  set q : ℚ := (((block.acceleration_steps_per_s2 : ℤ)) : ℚ) with hqdef
  have h120i : (120 : ℤ) ≤ i := le_max_right _ _
  have h120f : (120 : ℤ) ≤ f := le_max_right _ _
  have hiq : (i : ℚ) ≤ (block.nominal_rate : ℚ) := by exact_mod_cast hi
  have hfq : (f : ℚ) ≤ (block.nominal_rate : ℚ) := by exact_mod_cast hf
  have hiq0 : (0 : ℚ) ≤ (i : ℚ) := by
    have : (0 : ℤ) ≤ i := by omega
    exact_mod_cast this
  have hfq0 : (0 : ℚ) ≤ (f : ℚ) := by
    have : (0 : ℤ) ≤ f := by omega
    exact_mod_cast this
  have hq0 : (0 : ℚ) ≤ q := by rw [hqdef]; positivity
  have hestA : 0 ≤ estimate_acceleration_distance (i : ℚ) (block.nominal_rate : ℚ) q := by
    unfold estimate_acceleration_distance
    split_ifs with h
    · exact le_refl _
    · apply div_nonneg
      · nlinarith
      · nlinarith
  have hestD : 0 ≤ estimate_acceleration_distance (block.nominal_rate : ℚ) (f : ℚ) (-q) := by
    unfold estimate_acceleration_distance
    split_ifs with h
    · exact le_refl _
    · have hqpos : (0 : ℚ) < q := by
        rcases lt_or_eq_of_le hq0 with h1 | h1
        · exact h1
        · exact absurd (by rw [← h1, neg_zero]) h
      refine div_nonneg_iff.mpr (Or.inr ⟨?_, ?_⟩)
      · nlinarith
      · nlinarith
  have hA : 0 ≤ ⌈estimate_acceleration_distance (i : ℚ) (block.nominal_rate : ℚ) q⌉ :=
    Int.ceil_nonneg hestA
  have hD : 0 ≤ ⌊estimate_acceleration_distance (block.nominal_rate : ℚ) (f : ℚ) (-q)⌋ :=
    Int.floor_nonneg.mpr hestD
  have hsecZ : ((block.step_event_count : ℤ)) < 2 ^ 24 := by exact_mod_cast hsec
  have hsecZ0 : (0 : ℤ) ≤ (block.step_event_count : ℤ) := Int.natCast_nonneg _
  have hiU : i < 2 ^ 24 := by
    have : ((block.nominal_rate : ℤ)) < 2 ^ 24 := by exact_mod_cast hnr
    omega
  have hfU : f < 2 ^ 24 := by
    have : ((block.nominal_rate : ℤ)) < 2 ^ 24 := by exact_mod_cast hnr
    omega
  refine ⟨nat_le_store24 (by omega) hiU, nat_le_store24 (by omega) hfU, ?_, ?_⟩
  · split_ifs with hP
    · apply store24_le_store24
      · exact le_min (le_max_right _ _) hsecZ0
      · omega
      · have : ((⌈intersection_distance (i : ℚ) (f : ℚ) q (block.step_event_count : ℚ)⌉ ⊔ 0) ⊓ (block.step_event_count : ℤ)) ≤ (block.step_event_count : ℤ) := min_le_right _ _
        omega
    · apply store24_le_store24
      · exact hA
      · omega
      · omega
  · split_ifs with hP
    · apply store24_le_nat
      · have : (0 : ℤ) ≤ ((⌈intersection_distance (i : ℚ) (f : ℚ) q (block.step_event_count : ℚ)⌉ ⊔ 0) ⊓ (block.step_event_count : ℤ)) := le_min (le_max_right _ _) hsecZ0
        omega
      · have : ((⌈intersection_distance (i : ℚ) (f : ℚ) q (block.step_event_count : ℚ)⌉ ⊔ 0) ⊓ (block.step_event_count : ℤ)) ≤ (block.step_event_count : ℤ) := min_le_right _ _
        omega
      · exact hsec
    · apply store24_le_nat
      · omega
      · omega
      · exact hsec

/-- Witness for `calculate_trapezoid_for_block_invariant` at entry 100 and
exit 150 on `wideExitBlock` (nominal rate 200). -/
theorem calculate_trapezoid_for_block_invariant_witness :
    wideExitBlock.flag.busy = false ∧
    (120 ≤ (calculate_trapezoid_for_block wideExitBlock 100 150).initial_rate ∧
     120 ≤ (calculate_trapezoid_for_block wideExitBlock 100 150).final_rate ∧
     (calculate_trapezoid_for_block wideExitBlock 100 150).accelerate_until ≤
       (calculate_trapezoid_for_block wideExitBlock 100 150).decelerate_after ∧
     (calculate_trapezoid_for_block wideExitBlock 100 150).decelerate_after ≤
       (calculate_trapezoid_for_block wideExitBlock 100 150).step_event_count) :=
  ⟨rfl,
   calculate_trapezoid_for_block_invariant wideExitBlock 100 150 rfl
     (by norm_num [wideExitBlock, zeroBlock])
     (by norm_num [wideExitBlock, zeroBlock])
     (by norm_num [MINIMAL_STEP_RATE, wideExitBlock, zeroBlock])
     (by norm_num [MINIMAL_STEP_RATE, wideExitBlock, zeroBlock])⟩

/-- Claim C5: for every non-busy block and speed pair, the committed block
has `initial_rate = ⌈entry⌉` and `final_rate = ⌈exit⌉` clamped up to
`MINIMAL_STEP_RATE = 120` — these stores are branch-independent
(Marlin_main.cpp:4084-4089) and hold whatever the sign of the plateau step
count — and, whenever the plateau step count (`step_event_count` minus the
acceleration and deceleration step estimates) is negative, `accelerate_until`
is instead `⌈intersection_distance(initial_rate, final_rate, a,
step_event_count)⌉` clamped to `[0, step_event_count]` with a zero-length
plateau (`decelerate_after = accelerate_until`), where
`intersection_distance(u,v,a,d) = (2·a·d − u² + v²)/(4·a)`, `0` when
`a = 0`.  The speeds are non-negative and the rates fit in the `uint24`
fields, as for every caller. -/
theorem calculate_trapezoid_rates_spec (block : block_t) (entry next_entry : ℚ)
    (hbusy : block.flag.busy = false)
    (he0 : 0 ≤ entry) (hx0 : 0 ≤ next_entry)
    (heU : ⌈entry⌉ < 2 ^ 24) (hxU : ⌈next_entry⌉ < 2 ^ 24)
    (hsec : block.step_event_count < 2 ^ 24) :
    ((calculate_trapezoid_for_block block entry next_entry).initial_rate : ℤ) =
      max ⌈entry⌉ 120 ∧
    ((calculate_trapezoid_for_block block entry next_entry).final_rate : ℤ) =
      max ⌈next_entry⌉ 120 ∧
    ((block.step_event_count : ℤ) -
        ⌈estimate_acceleration_distance ((max ⌈entry⌉ 120 : ℤ)) (block.nominal_rate)
            ((block.acceleration_steps_per_s2 : ℤ))⌉ -
        ⌊estimate_acceleration_distance (block.nominal_rate) ((max ⌈next_entry⌉ 120 : ℤ))
            (-((block.acceleration_steps_per_s2 : ℤ)))⌋ < 0 →
      ((calculate_trapezoid_for_block block entry next_entry).accelerate_until : ℤ) =
        min (max ⌈(if ((block.acceleration_steps_per_s2 : ℤ) : ℚ) = 0 then (0 : ℚ)
            else (2 * ((block.acceleration_steps_per_s2 : ℤ) : ℚ) * (block.step_event_count : ℚ)
                - ((max ⌈entry⌉ 120 : ℤ) : ℚ) ^ 2 + ((max ⌈next_entry⌉ 120 : ℤ) : ℚ) ^ 2) /
              (4 * ((block.acceleration_steps_per_s2 : ℤ) : ℚ)))⌉ 0)
          (block.step_event_count : ℤ) ∧
      (calculate_trapezoid_for_block block entry next_entry).decelerate_after =
        (calculate_trapezoid_for_block block entry next_entry).accelerate_until) := by
  have hID : intersection_distance ((max ⌈entry⌉ 120 : ℤ) : ℚ)
      ((max ⌈next_entry⌉ 120 : ℤ) : ℚ) (((block.acceleration_steps_per_s2 : ℤ)) : ℚ)
      ((block.step_event_count : ℕ) : ℚ) =
      (if ((block.acceleration_steps_per_s2 : ℤ) : ℚ) = 0 then (0 : ℚ)
          else (2 * ((block.acceleration_steps_per_s2 : ℤ) : ℚ) * (block.step_event_count : ℚ)
              - ((max ⌈entry⌉ 120 : ℤ) : ℚ) ^ 2 + ((max ⌈next_entry⌉ 120 : ℤ) : ℚ) ^ 2) /
            (4 * ((block.acceleration_steps_per_s2 : ℤ) : ℚ))) := by
    unfold intersection_distance
    split_ifs with h
    · rfl
    · ring_nf
  have hiB : max ⌈entry⌉ (120 : ℤ) < 2 ^ 24 := by omega
  have hfB : max ⌈next_entry⌉ (120 : ℤ) < 2 ^ 24 := by omega
  have hi0 : (0 : ℤ) ≤ max ⌈entry⌉ 120 := by omega
  have hf0 : (0 : ℤ) ≤ max ⌈next_entry⌉ 120 := by omega
  have hsecZ : ((block.step_event_count : ℤ)) < 2 ^ 24 := by exact_mod_cast hsec
  have hsecZ0 : (0 : ℤ) ≤ (block.step_event_count : ℤ) := Int.natCast_nonneg _
  simp only [calculate_trapezoid_for_block, hbusy, Bool.false_eq_true, if_false,
    MINIMAL_STEP_RATE]
  refine ⟨store24_coe hi0 hiB, store24_coe hf0 hfB, ?_⟩
  intro hplateau
  rw [if_pos hplateau, if_pos hplateau]
  refine ⟨?_, ?_⟩
  · rw [hID]
    exact store24_coe (le_min (le_max_right _ _) hsecZ0)
      (lt_of_le_of_lt (min_le_right _ _) hsecZ)
  · rw [add_zero]

/-- Witness for `calculate_trapezoid_rates_spec` on `shortSteepBlock` at
entry and exit speed 120: the plateau count is 10 − 246400 − 246400 < 0, and
the generator commits `accelerate_until = decelerate_after = 5 =
⌈(2·2·10 − 120² + 120²)/(4·2)⌉`. -/
theorem calculate_trapezoid_rates_spec_witness :
    ((shortSteepBlock.step_event_count : ℤ) -
        ⌈estimate_acceleration_distance ((max ⌈(120 : ℚ)⌉ 120 : ℤ)) (shortSteepBlock.nominal_rate)
            ((shortSteepBlock.acceleration_steps_per_s2 : ℤ))⌉ -
        ⌊estimate_acceleration_distance (shortSteepBlock.nominal_rate) ((max ⌈(120 : ℚ)⌉ 120 : ℤ))
            (-((shortSteepBlock.acceleration_steps_per_s2 : ℤ)))⌋ < 0) ∧
    ((calculate_trapezoid_for_block shortSteepBlock 120 120).initial_rate : ℤ) =
      max ⌈(120 : ℚ)⌉ 120 ∧
    ((calculate_trapezoid_for_block shortSteepBlock 120 120).final_rate : ℤ) =
      max ⌈(120 : ℚ)⌉ 120 ∧
    ((calculate_trapezoid_for_block shortSteepBlock 120 120).accelerate_until : ℤ) =
      min (max ⌈(if ((shortSteepBlock.acceleration_steps_per_s2 : ℤ) : ℚ) = 0 then (0 : ℚ)
          else (2 * ((shortSteepBlock.acceleration_steps_per_s2 : ℤ) : ℚ) * (shortSteepBlock.step_event_count : ℚ)
              - ((max ⌈(120 : ℚ)⌉ 120 : ℤ) : ℚ) ^ 2 + ((max ⌈(120 : ℚ)⌉ 120 : ℤ) : ℚ) ^ 2) /
            (4 * ((shortSteepBlock.acceleration_steps_per_s2 : ℤ) : ℚ)))⌉ 0)
        (shortSteepBlock.step_event_count : ℤ) ∧
    (calculate_trapezoid_for_block shortSteepBlock 120 120).decelerate_after =
      (calculate_trapezoid_for_block shortSteepBlock 120 120).accelerate_until := by
  have hp : (shortSteepBlock.step_event_count : ℤ) -
      ⌈estimate_acceleration_distance ((max ⌈(120 : ℚ)⌉ 120 : ℤ)) (shortSteepBlock.nominal_rate)
          ((shortSteepBlock.acceleration_steps_per_s2 : ℤ))⌉ -
      ⌊estimate_acceleration_distance (shortSteepBlock.nominal_rate) ((max ⌈(120 : ℚ)⌉ 120 : ℤ))
          (-((shortSteepBlock.acceleration_steps_per_s2 : ℤ)))⌋ < 0 := by
    norm_num [estimate_acceleration_distance, shortSteepBlock, zeroBlock]
  have h := calculate_trapezoid_rates_spec shortSteepBlock 120 120 rfl (by norm_num)
    (by norm_num) (by norm_num) (by norm_num)
    (by norm_num [shortSteepBlock, zeroBlock])
  exact ⟨hp, h.1, h.2.1, (h.2.2 hp).1, (h.2.2 hp).2⟩

end Planner

/-! Thermal subsystem (src/Tuna/thermal/thermal.cpp).  The preprocessor
flags at the top of the file fix which safety checks are compiled in:
`ENABLE_ERROR_1A = ENABLE_ERROR_1B = ENABLE_ERROR_2A = ENABLE_ERROR_2B = 0`
and `ENABLE_ERROR_3 = ENABLE_ERROR_4 = ENABLE_ERROR_5 = 1` (thermal.cpp:34-40),
so the min/max ADC checks are live while the watch-rise errors and the
thermal-runaway calls are compiled out.  The bed is modelled in its
`has_bed_thermal_management = false` variant (bang-bang `is_bed_heating`),
matching the ISR duty read `is_bed_heating ? 0xFF : 0`. -/

/-- Thermal-runaway protection states, `Temperature::TRState`
(declared in thermal.hpp, used at thermal.cpp:487-549). -/
inductive TRState where
  | Inactive
  | FirstHeating
  | Stable
  | Runaway
  deriving Repr, DecidableEq

/-- Per-heater fatal temperature errors raised by
`updateTemperaturesFromRawValues` (thermal.cpp:378-402). -/
inductive TempError where
  | hotendMax
  | hotendMin
  | bedMax
  | bedMin
  deriving Repr, DecidableEq

/-- Modelled from the spec: compile-time thermal configuration.  The
thermistor calibration (`Hotend::max_temperature::Adc`,
`Thermistor::adc_to_temperature`, …), the watch-rise constants and the
`Tuna::Thermal::Manager::Simple::get_power` controller live in headers that
are not among the sources; the spec describes them as a monotone
piecewise-linear ADC table with calibrated min/max bounds, watch constants,
and a bang-bang-or-PID duty in 0..255. -/
structure ThermalConfig where
  hotendRawLoLtHi : Bool
  bedRawLoLtHi : Bool
  hotendMaxAdc : ℕ
  hotendMinAdc : ℕ
  bedMaxAdc : ℕ
  bedMinAdc : ℕ
  hotendMinTemp : ℚ
  hotendMaxTemp : ℚ
  bedMinTemp : ℚ
  bedMaxTemp : ℚ
  clamp_adc : ℕ → ℕ
  adc_to_temperature : ℕ → ℚ
  get_power : ℚ → ℚ → ℕ
  watchTempIncrease : ℕ
  tempHysteresis : ℕ
  watchTempPeriod : ℕ
  watchBedTempIncrease : ℕ
  bedTempHysteresis : ℕ
  watchBedTempPeriod : ℕ

/-- The mutable thermal / machine cells: the `Temperature` statics
(thermal.cpp:46-65, 487-493), the interrupt mailbox (thermal.cpp:115-117),
the heater output pins, and the machine-level cells `kill` touches
(`Running`, stepper enables, interrupt flag) together with a watchdog
model: `watchdog_counter` is the time since the watchdog was last reset,
and `wdr_count` counts executed `Tuna::intrinsic::wdr()` instructions. -/
structure ThermalState where
  current_temperature : ℚ
  current_temperature_bed : ℚ
  target_temperature : ℚ
  target_temperature_bed : ℚ
  watch_target_temp : ℚ
  watch_heater_next_ms : ℕ
  watch_target_bed_temp : ℚ
  watch_bed_next_ms : ℕ
  soft_pwm_amount : ℕ
  is_bed_heating : Bool
  heater0_output : Bool
  bed_output : Bool
  thermal_runaway_state_machine : TRState
  thermal_runaway_timer : ℕ
  thermal_runaway_bed_state_machine : TRState
  thermal_runaway_bed_timer : ℕ
  tr_target_temperature : ℚ
  tr_target_temperature_bed : ℚ
  interrupt_ready : Bool
  raw_adc_hotend : ℕ
  raw_adc_bed : ℕ
  preheating : Bool
  running : Bool
  killed : Bool
  autotemp_enabled : Bool
  print_job_timer_running : Bool
  steppers_enabled : Bool
  interrupts_enabled : Bool
  watchdog_counter : ℕ
  wdr_count : ℕ

namespace Temperature

/-- Shared tail of the `TRStable` and `TRRunaway` cases of
`thermal_runaway_protection` (thermal.cpp:532-548): the `switch` falls
through from `TRStable` into `TRRunaway`, whose body raises the fatal
error.  Returns `(state, timer, tr_target, fatal)`. -/
def stableStep (tr_target current : ℚ) (timer : ℕ)
    (period_seconds hysteresis_degc : ℕ) (now : ℕ) :
    TRState × ℕ × ℚ × Bool :=
  if current ≥ tr_target - (hysteresis_degc : ℚ) then
    (TRState.Stable, now + period_seconds * 1000, tr_target, false)
  else if now < timer then
    (TRState.Stable, timer, tr_target, false)
  else
    (TRState.Runaway, timer, tr_target, true)

/-- `Temperature::thermal_runaway_protection` (thermal.cpp:495-549).
`tr_target` is the template-static `tr_target_temperature`; `now` is
`millis()`; `PENDING(now, timer)` is `now < timer`.  The final component
is `true` when the `TRRunaway` body calls `_temp_error` (fatal). -/
def thermal_runaway_protection (state : TRState) (timer : ℕ)
    (tr_target : ℚ) (current target : ℚ)
    (period_seconds hysteresis_degc : ℕ) (now : ℕ) :
    TRState × ℕ × ℚ × Bool :=
  let restart := tr_target ≠ target
  let trt := if restart then target else tr_target
  let state1 :=
    if restart then
      (if target > 0 then TRState.FirstHeating else TRState.Inactive)
    else state
  match state1 with
  | TRState.Inactive => (TRState.Inactive, timer, trt, false)
  | TRState.FirstHeating =>
      if current < trt then (TRState.FirstHeating, timer, trt, false)
      else stableStep trt current timer period_seconds hysteresis_degc now
  | TRState.Stable =>
      stableStep trt current timer period_seconds hysteresis_degc now
  | TRState.Runaway => (TRState.Runaway, timer, trt, true)

/-- Hotend over-temperature trigger (thermal.cpp:381/386, `ENABLE_ERROR_3`):
raw on the hot side of `Hotend::max_temperature::Adc` and target > 0. -/
def hotendMaxTriggered (cfg : ThermalConfig) (s : ThermalState) : Prop :=
  (if cfg.hotendRawLoLtHi then cfg.hotendMaxAdc ≤ s.raw_adc_hotend
   else s.raw_adc_hotend ≤ cfg.hotendMaxAdc) ∧ 0 < s.target_temperature

/-- Hotend under-temperature trigger (thermal.cpp:382/387): raw on the cold
side of `Hotend::min_temperature::Adc`, not preheating, and target > 0. -/
def hotendMinTriggered (cfg : ThermalConfig) (s : ThermalState) : Prop :=
  (if cfg.hotendRawLoLtHi then s.raw_adc_hotend ≤ cfg.hotendMinAdc
   else cfg.hotendMinAdc ≤ s.raw_adc_hotend) ∧
    s.preheating = false ∧ 0 < s.target_temperature

/-- Bed over-temperature trigger (thermal.cpp:394/399, `ENABLE_ERROR_5`). -/
def bedMaxTriggered (cfg : ThermalConfig) (s : ThermalState) : Prop :=
  (if cfg.bedRawLoLtHi then cfg.bedMaxAdc ≤ s.raw_adc_bed
   else s.raw_adc_bed ≤ cfg.bedMaxAdc) ∧ 0 < s.target_temperature_bed

/-- Bed under-temperature trigger (thermal.cpp:395/400). -/
def bedMinTriggered (cfg : ThermalConfig) (s : ThermalState) : Prop :=
  (if cfg.bedRawLoLtHi then s.raw_adc_bed ≤ cfg.bedMinAdc
   else cfg.bedMinAdc ≤ s.raw_adc_bed) ∧ 0 < s.target_temperature_bed

instance (cfg : ThermalConfig) (s : ThermalState) :
    Decidable (hotendMaxTriggered cfg s) := by
  unfold hotendMaxTriggered; infer_instance

instance (cfg : ThermalConfig) (s : ThermalState) :
    Decidable (hotendMinTriggered cfg s) := by
  unfold hotendMinTriggered; infer_instance

instance (cfg : ThermalConfig) (s : ThermalState) :
    Decidable (bedMaxTriggered cfg s) := by
  unfold bedMaxTriggered; infer_instance

instance (cfg : ThermalConfig) (s : ThermalState) :
    Decidable (bedMinTriggered cfg s) := by
  unfold bedMinTriggered; infer_instance

/-- First fatal min/max error raised by the check block at
thermal.cpp:378-402.  The checks run in program order; `_temp_error`
never returns (it ends in `kill`), so the first satisfied trigger wins. -/
def firstTempError (cfg : ThermalConfig) (s : ThermalState) : Option TempError :=
  if hotendMaxTriggered cfg s then some TempError.hotendMax
  else if hotendMinTriggered cfg s then some TempError.hotendMin
  else if bedMaxTriggered cfg s then some TempError.bedMax
  else if bedMinTriggered cfg s then some TempError.bedMin
  else none

/-- Result of `updateTemperaturesFromRawValues` / `manage_heater`:
`noSample` is the `false` early return (no fresh ADC pair), `fatal` is a
call into `_temp_error` (which never returns), `ok` is the `true` path. -/
inductive ManageResult where
  | noSample (s : ThermalState)
  | fatal (e : TempError) (s : ThermalState)
  | ok (s : ThermalState)

/-- The state carried by a `ManageResult`. -/
def ManageResult.state : ManageResult → ThermalState
  | ManageResult.noSample s => s
  | ManageResult.fatal _ s => s
  | ManageResult.ok s => s

/-- Body of `updateTemperaturesFromRawValues` after the raw pair has been
consumed and the ready flag cleared (thermal.cpp:378-427): run the min/max
checks (`_temp_error` never returns, hence `fatal`); on success convert
the clamped raws through the thermistor table and pet the watchdog
(`Tuna::intrinsic::wdr()`, thermal.cpp:425). -/
def checkAndPublishRawValues (cfg : ThermalConfig) (s1 : ThermalState) :
    ManageResult :=
  match firstTempError cfg s1 with
  | some e => ManageResult.fatal e s1
  | none =>
      ManageResult.ok
        { s1 with
          current_temperature :=
            cfg.adc_to_temperature (cfg.clamp_adc s1.raw_adc_hotend)
          current_temperature_bed :=
            cfg.adc_to_temperature (cfg.clamp_adc s1.raw_adc_bed)
          wdr_count := s1.wdr_count + 1
          watchdog_counter := 0 }

/-- `Temperature::updateTemperaturesFromRawValues` (thermal.cpp:363-429).
Returns `noSample` (C `false`) when the ISR has published nothing new;
otherwise consumes the raw pair under the critical section, clears the
ready flag, and runs `checkAndPublishRawValues`.  The running trend
estimator (thermal.cpp:413-422) touches no field any claim mentions and
is omitted; `HeaterManager::debug_dump()` is output-only. -/
def updateTemperaturesFromRawValues (cfg : ThermalConfig) (s : ThermalState) :
    ManageResult :=
  if s.interrupt_ready = false then ManageResult.noSample s
  else checkAndPublishRawValues cfg { s with interrupt_ready := false }

/-- `Temperature::start_watching_heater` (thermal.cpp:464-471). -/
def start_watching_heater (cfg : ThermalConfig) (now : ℕ) (s : ThermalState) :
    ThermalState :=
  if s.current_temperature <
      s.target_temperature -
        ((cfg.watchTempIncrease + cfg.tempHysteresis + 1 : ℕ) : ℚ) then
    { s with
      watch_target_temp := s.current_temperature + (cfg.watchTempIncrease : ℚ)
      watch_heater_next_ms := now + cfg.watchTempPeriod * 1000 }
  else
    { s with watch_heater_next_ms := 0 }

/-- `Temperature::start_watching_bed` (thermal.cpp:478-485). -/
def start_watching_bed (cfg : ThermalConfig) (now : ℕ) (s : ThermalState) :
    ThermalState :=
  if s.current_temperature_bed <
      s.target_temperature_bed -
        ((cfg.watchBedTempIncrease + cfg.bedTempHysteresis + 1 : ℕ) : ℚ) then
    { s with
      watch_target_bed_temp :=
        s.current_temperature_bed + (cfg.watchBedTempIncrease : ℚ)
      watch_bed_next_ms := now + cfg.watchBedTempPeriod * 1000 }
  else
    { s with watch_bed_next_ms := 0 }

/-- Watch-rise re-arm for the hotend (thermal.cpp:269-276).  With
`ENABLE_ERROR_1A = 0` the expiry of the watch period only calls
`start_watching_heater` again; `ELAPSED(ms, t)` is `t ≤ ms`. -/
def watchHeaterRearm (cfg : ThermalConfig) (now : ℕ) (s : ThermalState) :
    ThermalState :=
  if s.watch_heater_next_ms ≠ 0 ∧ s.watch_heater_next_ms ≤ now then
    start_watching_heater cfg now s
  else s

/-- Watch-rise re-arm for the bed (thermal.cpp:279-286, `ENABLE_ERROR_1B = 0`). -/
def watchBedRearm (cfg : ThermalConfig) (now : ℕ) (s : ThermalState) :
    ThermalState :=
  if s.watch_bed_next_ms ≠ 0 ∧ s.watch_bed_next_ms ≤ now then
    start_watching_bed cfg now s
  else s

/-- Hotend duty selection (thermal.cpp:296-308): target 0 forces duty 0 and
the output pin low; out-of-band or preheating temperature forces duty 0;
otherwise the duty comes from `HeaterManager::get_power`. -/
def hotendDuty (cfg : ThermalConfig) (s : ThermalState) : ThermalState :=
  if s.target_temperature = (0 : ℚ) then
    { s with
      soft_pwm_amount := 0
      heater0_output := false }
  else if (s.current_temperature ≤ cfg.hotendMinTemp ∨ s.preheating = true) ∨
      s.current_temperature ≥ cfg.hotendMaxTemp then
    { s with soft_pwm_amount := 0 }
  else
    { s with soft_pwm_amount :=
        cfg.get_power s.current_temperature s.target_temperature }

/-- Bed target-zero failsafe (thermal.cpp:311-322, the
`has_bed_thermal_management = false` variant). -/
def bedTargetZeroOff (s : ThermalState) : ThermalState :=
  if s.target_temperature_bed = (0 : ℚ) then
    { s with
      is_bed_heating := false
      bed_output := false }
  else s

/-- Bed bang-bang control (thermal.cpp:325-347): inside the allowed window
the bed heats while below target, outside it the bed is forced off. -/
def bedBangBang (cfg : ThermalConfig) (s : ThermalState) : ThermalState :=
  if cfg.bedMinTemp ≤ s.current_temperature_bed ∧
      s.current_temperature_bed ≤ cfg.bedMaxTemp then
    { s with is_bed_heating :=
        decide (s.current_temperature_bed < s.target_temperature_bed) }
  else
    { s with
      is_bed_heating := false
      bed_output := false }

/-- `Temperature::manage_heater` (thermal.cpp:254-350).  With
`ENABLE_ERROR_2A/2B = 0` the two `thermal_runaway_protection` calls are
compiled out, so the runaway state machine fields are never read or written
here; with `ENABLE_ERROR_1A/1B = 0` the watch-rise expiry only re-arms the
watcher. -/
def manage_heater (cfg : ThermalConfig) (now : ℕ) (s : ThermalState) :
    ManageResult :=
  match updateTemperaturesFromRawValues cfg s with
  | ManageResult.noSample s1 => ManageResult.noSample s1
  | ManageResult.fatal e s1 => ManageResult.fatal e s1
  | ManageResult.ok s1 =>
      ManageResult.ok
        (bedBangBang cfg (bedTargetZeroOff (hotendDuty cfg
          (watchBedRearm cfg now (watchHeaterRearm cfg now s1)))))

/-- One plain-counter soft-PWM step of `Temperature::isr`
(thermal.cpp:833-846, the `uniform_distributed_pwm = false` branch, reached
on every 8th timer tick).  Arguments are the `uint8` PWM counter and the
two latched duties (`soft_pwm_amount` and `is_bed_heating ? 0xFF : 0`);
returns the new hotend pin level, the new bed pin level, and the
incremented counter. -/
def soft_pwm_isr_tick (pwm_counter extruder_pwm bed_pwm : ℕ) :
    Bool × Bool × ℕ :=
  (decide (pwm_counter ≤ extruder_pwm) && decide (0 < extruder_pwm),
   decide (pwm_counter ≤ bed_pwm) && decide (0 < bed_pwm),
   (pwm_counter + 1) % 256)

/-- `Temperature::disable_all_heaters` (thermal.cpp:554-578). -/
def disable_all_heaters (s : ThermalState) : ThermalState :=
  { s with
    autotemp_enabled := false
    target_temperature := 0
    target_temperature_bed := 0
    print_job_timer_running := false
    soft_pwm_amount := 0
    heater0_output := false
    is_bed_heating := false
    bed_output := false }

end Temperature

/-- `_delay_ms`: time passes, the watchdog timer keeps counting. -/
def delay (ms : ℕ) (s : ThermalState) : ThermalState :=
  { s with watchdog_counter := s.watchdog_counter + ms }

/-- `Tuna::intrinsic::wdr()`: the AVR watchdog-reset instruction — pets the
watchdog, zeroing its timer. -/
def wdr (s : ThermalState) : ThermalState :=
  { s with
    watchdog_counter := 0
    wdr_count := s.wdr_count + 1 }

/-- `kill` (Marlin_main.cpp:3739-3758) up to the final loop: disable all
heaters and steppers, wait 600 ms, stop interrupts, wait 250 ms, disable
all heaters again.  `suicide()` is a no-op without a suicide pin. -/
def kill (s : ThermalState) : ThermalState :=
  Temperature.disable_all_heaters
    (delay 250
      { delay 600 { Temperature.disable_all_heaters s with
          steppers_enabled := false } with
        interrupts_enabled := false })

/-- The guard of the terminal loop `while (1) { Tuna::intrinsic::wdr(); }`
(Marlin_main.cpp:3755-3757): the constant `1`. -/
def killLoopGuard (_ : ThermalState) : Bool := true

/-- One iteration of the terminal `kill` loop: a (bounded, here one time
unit) amount of time passes and `Tuna::intrinsic::wdr()` executes. -/
def killLoopIter (s : ThermalState) : ThermalState := wdr (delay 1 s)

/-- Tail of `Temperature::_temp_error` (thermal.cpp:221-232): on the first
fatal error clear `Running`, latch `killed` and call `kill`; on a repeat
call just disable the heaters again. -/
def temp_error_fatal (s : ThermalState) : ThermalState :=
  if s.killed = false then
    kill { s with
           running := false
           killed := true }
  else Temperature.disable_all_heaters s

/-! Concrete thermal states and configuration used by witnesses and
counterexamples. -/

/-- A benign machine state: idle at 25 °C, targets 0, heaters off, running,
not yet killed. -/
def baseThermalState : ThermalState :=
  { current_temperature := 25, current_temperature_bed := 25,
    target_temperature := 0, target_temperature_bed := 0,
    watch_target_temp := 0, watch_heater_next_ms := 0,
    watch_target_bed_temp := 0, watch_bed_next_ms := 0,
    soft_pwm_amount := 0, is_bed_heating := false,
    heater0_output := false, bed_output := false,
    thermal_runaway_state_machine := TRState.Inactive,
    thermal_runaway_timer := 0,
    thermal_runaway_bed_state_machine := TRState.Inactive,
    thermal_runaway_bed_timer := 0,
    tr_target_temperature := 0, tr_target_temperature_bed := 0,
    interrupt_ready := false, raw_adc_hotend := 500, raw_adc_bed := 500,
    preheating := false, running := true, killed := false,
    autotemp_enabled := false, print_job_timer_running := true,
    steppers_enabled := true, interrupts_enabled := true,
    watchdog_counter := 0, wdr_count := 0 }

/-- Modelled from the spec: a test configuration with a linear thermistor
table (`temperature = raw/4`), calibrated ADC window `(10, 1000)` for both
heaters, and a bang-bang 255-duty controller. -/
def testConfig : ThermalConfig :=
  { hotendRawLoLtHi := true, bedRawLoLtHi := true,
    hotendMaxAdc := 1000, hotendMinAdc := 10,
    bedMaxAdc := 1000, bedMinAdc := 10,
    hotendMinTemp := 5, hotendMaxTemp := 275,
    bedMinTemp := 5, bedMaxTemp := 150,
    clamp_adc := fun r => r,
    adc_to_temperature := fun r => (r : ℚ) / 4,
    get_power := fun _ _ => 255,
    watchTempIncrease := 2, tempHysteresis := 3, watchTempPeriod := 20,
    watchBedTempIncrease := 2, bedTempHysteresis := 3,
    watchBedTempPeriod := 60 }

/-- State right after the user sets a 200 °C hotend target: a fresh ADC
pair is ready (raw 500 ≈ 125 °C, inside the calibrated window), the
thermal-runaway machine is still `Inactive` and its latched target differs
from the new one. -/
def runawayProbeState : ThermalState :=
  { baseThermalState with
    interrupt_ready := true
    target_temperature := 200 }

/-- State with the hotend ADC reading past the calibrated maximum while a
target is set. -/
def hotendMaxProbeState : ThermalState :=
  { baseThermalState with
    interrupt_ready := true
    raw_adc_hotend := 1200
    target_temperature := 5 }

namespace Temperature

/-- Claim C9 counterexample: with duty 0 and the counter at 0 the claimed
rule `output high while counter ≤ duty` would drive the heater high, but
the ISR (thermal.cpp:839) also requires `duty > 0` and drives it low. -/
theorem soft_pwm_zero_duty_counterexample :
    (0 : ℕ) ≤ 0 ∧ (soft_pwm_isr_tick 0 0 0).1 = false :=
  ⟨le_refl 0, rfl⟩

/-- Claim C9 (amended): on every plain-counter PWM tick each heater output
is set high exactly when the modulo-256 counter is at most the latched duty
AND the duty is positive, and the counter advances by one modulo 256. -/
theorem soft_pwm_isr_tick_spec (c e b : ℕ) :
    ((soft_pwm_isr_tick c e b).1 = true ↔ c ≤ e ∧ 0 < e) ∧
    ((soft_pwm_isr_tick c e b).2.1 = true ↔ c ≤ b ∧ 0 < b) ∧
    (soft_pwm_isr_tick c e b).2.2 = (c + 1) % 256 := by
  unfold soft_pwm_isr_tick
  simp

end Temperature

lemma killLoopIter_wdr_count (x : ThermalState) (n : ℕ) :
    (killLoopIter^[n] x).wdr_count = x.wdr_count + n := by
  induction n with
  | zero => rfl
  | succ m ih =>
      rw [Function.iterate_succ_apply']
      have h : ∀ y : ThermalState, (killLoopIter y).wdr_count = y.wdr_count + 1 :=
        fun _ => rfl
      rw [h, ih]
      omega

lemma killLoopIter_watchdog (x : ThermalState) (n : ℕ) :
    (killLoopIter^[n + 1] x).watchdog_counter = 0 := by
  rw [Function.iterate_succ_apply']
  rfl

/-- Claim C1 counterexample: after a fatal thermal error the terminal loop
DOES pet the watchdog — `Tuna::intrinsic::wdr()` is its whole body
(Marlin_main.cpp:3755-3757) — so the watchdog timer is back at zero after
every iteration instead of running out. -/
theorem kill_loop_watchdog_counterexample :
    0 < (killLoopIter^[3] (temp_error_fatal baseThermalState)).wdr_count ∧
    (killLoopIter^[3] (temp_error_fatal baseThermalState)).watchdog_counter = 0 := by
  constructor
  · norm_num [killLoopIter, wdr, delay, temp_error_fatal, kill,
      Temperature.disable_all_heaters, baseThermalState,
      Function.iterate_succ_apply]
  · rfl

/-- Claim C1 (amended): a first fatal thermal error clears the running
flag, disables every heater output, and enters the `while (1)` loop that
never exits; each loop iteration executes the watchdog-reset instruction,
so the watchdog timer is zeroed every iteration (the board waits for a
manual reset rather than a watchdog reset). -/
theorem temp_error_fatal_spec (s : ThermalState) (hk : s.killed = false) :
    (temp_error_fatal s).running = false ∧
    (temp_error_fatal s).target_temperature = 0 ∧
    (temp_error_fatal s).target_temperature_bed = 0 ∧
    (temp_error_fatal s).soft_pwm_amount = 0 ∧
    (temp_error_fatal s).heater0_output = false ∧
    (temp_error_fatal s).is_bed_heating = false ∧
    (temp_error_fatal s).bed_output = false ∧
    (temp_error_fatal s).interrupts_enabled = false ∧
    (∀ n : ℕ, killLoopGuard (killLoopIter^[n] (temp_error_fatal s)) = true) ∧
    (∀ n : ℕ, (killLoopIter^[n + 1] (temp_error_fatal s)).wdr_count =
        (temp_error_fatal s).wdr_count + (n + 1)) ∧
    (∀ n : ℕ, (killLoopIter^[n + 1] (temp_error_fatal s)).watchdog_counter = 0) := by
  refine ⟨?_, ?_, ?_, ?_, ?_, ?_, ?_, ?_, fun n => rfl,
    fun n => killLoopIter_wdr_count _ (n + 1),
    fun n => killLoopIter_watchdog _ n⟩
  all_goals
    simp [temp_error_fatal, hk, kill, Temperature.disable_all_heaters, delay]

/-- Witness for `temp_error_fatal_spec` at the concrete running state. -/
theorem temp_error_fatal_spec_witness :
    baseThermalState.killed = false ∧
    (temp_error_fatal baseThermalState).running = false ∧
    killLoopGuard (killLoopIter^[5] (temp_error_fatal baseThermalState)) = true ∧
    (killLoopIter^[3 + 1] (temp_error_fatal baseThermalState)).wdr_count =
      (temp_error_fatal baseThermalState).wdr_count + (3 + 1) ∧
    (killLoopIter^[2 + 1] (temp_error_fatal baseThermalState)).watchdog_counter = 0 := by
  obtain ⟨h1, h2, h3, h4, h5, h6, h7, h8, h9, h10, h11⟩ :=
    temp_error_fatal_spec baseThermalState rfl
  exact ⟨rfl, h1, h9 5, h10 3, h11 2⟩


namespace Temperature

lemma update_preserves_runaway (cfg : ThermalConfig) (s : ThermalState) :
    ((updateTemperaturesFromRawValues cfg s).state).thermal_runaway_state_machine =
        s.thermal_runaway_state_machine ∧
    ((updateTemperaturesFromRawValues cfg s).state).thermal_runaway_timer =
        s.thermal_runaway_timer ∧
    ((updateTemperaturesFromRawValues cfg s).state).tr_target_temperature =
        s.tr_target_temperature := by
  unfold updateTemperaturesFromRawValues checkAndPublishRawValues
  split
  · exact ⟨rfl, rfl, rfl⟩
  · split <;> exact ⟨rfl, rfl, rfl⟩

lemma watchHeaterRearm_pres (cfg : ThermalConfig) (now : ℕ) (x : ThermalState) :
    (watchHeaterRearm cfg now x).thermal_runaway_state_machine =
        x.thermal_runaway_state_machine ∧
    (watchHeaterRearm cfg now x).thermal_runaway_timer = x.thermal_runaway_timer ∧
    (watchHeaterRearm cfg now x).tr_target_temperature = x.tr_target_temperature := by
  unfold watchHeaterRearm start_watching_heater
  split_ifs <;> exact ⟨rfl, rfl, rfl⟩

lemma watchBedRearm_pres (cfg : ThermalConfig) (now : ℕ) (x : ThermalState) :
    (watchBedRearm cfg now x).thermal_runaway_state_machine =
        x.thermal_runaway_state_machine ∧
    (watchBedRearm cfg now x).thermal_runaway_timer = x.thermal_runaway_timer ∧
    (watchBedRearm cfg now x).tr_target_temperature = x.tr_target_temperature := by
  unfold watchBedRearm start_watching_bed
  split_ifs <;> exact ⟨rfl, rfl, rfl⟩

lemma hotendDuty_pres (cfg : ThermalConfig) (x : ThermalState) :
    (hotendDuty cfg x).thermal_runaway_state_machine =
        x.thermal_runaway_state_machine ∧
    (hotendDuty cfg x).thermal_runaway_timer = x.thermal_runaway_timer ∧
    (hotendDuty cfg x).tr_target_temperature = x.tr_target_temperature := by
  unfold hotendDuty
  split_ifs <;> exact ⟨rfl, rfl, rfl⟩

lemma bedTargetZeroOff_pres (x : ThermalState) :
    (bedTargetZeroOff x).thermal_runaway_state_machine =
        x.thermal_runaway_state_machine ∧
    (bedTargetZeroOff x).thermal_runaway_timer = x.thermal_runaway_timer ∧
    (bedTargetZeroOff x).tr_target_temperature = x.tr_target_temperature := by
  unfold bedTargetZeroOff
  split_ifs <;> exact ⟨rfl, rfl, rfl⟩

lemma bedBangBang_pres (cfg : ThermalConfig) (x : ThermalState) :
    (bedBangBang cfg x).thermal_runaway_state_machine =
        x.thermal_runaway_state_machine ∧
    (bedBangBang cfg x).thermal_runaway_timer = x.thermal_runaway_timer ∧
    (bedBangBang cfg x).tr_target_temperature = x.tr_target_temperature := by
  unfold bedBangBang
  split_ifs <;> exact ⟨rfl, rfl, rfl⟩

lemma manage_preserves_runaway (cfg : ThermalConfig) (now : ℕ) (s : ThermalState) :
    ((manage_heater cfg now s).state).thermal_runaway_state_machine =
        s.thermal_runaway_state_machine ∧
    ((manage_heater cfg now s).state).thermal_runaway_timer =
        s.thermal_runaway_timer ∧
    ((manage_heater cfg now s).state).tr_target_temperature =
        s.tr_target_temperature := by
  have hu := update_preserves_runaway cfg s
  unfold manage_heater
  cases hq : updateTemperaturesFromRawValues cfg s with
  | noSample s1 =>
      rw [hq] at hu
      exact hu
  | fatal e s1 =>
      rw [hq] at hu
      exact hu
  | ok s1 =>
      rw [hq] at hu
      simp only [ManageResult.state] at hu ⊢
      obtain ⟨u1, u2, u3⟩ := hu
      obtain ⟨a1, a2, a3⟩ := watchHeaterRearm_pres cfg now s1
      obtain ⟨b1, b2, b3⟩ := watchBedRearm_pres cfg now (watchHeaterRearm cfg now s1)
      obtain ⟨c1, c2, c3⟩ := hotendDuty_pres cfg
        (watchBedRearm cfg now (watchHeaterRearm cfg now s1))
      obtain ⟨d1, d2, d3⟩ := bedTargetZeroOff_pres
        (hotendDuty cfg (watchBedRearm cfg now (watchHeaterRearm cfg now s1)))
      obtain ⟨e1, e2, e3⟩ := bedBangBang_pres cfg
        (bedTargetZeroOff (hotendDuty cfg
          (watchBedRearm cfg now (watchHeaterRearm cfg now s1))))
      refine ⟨?_, ?_, ?_⟩
      · rw [e1, d1, c1, b1, a1, u1]
      · rw [e2, d2, c2, b2, a2, u2]
      · rw [e3, d3, c3, b3, a3, u3]

/-- Claim C2 counterexample: a fresh in-range sample arrives right after
the user sets a 200 °C target (measured 125 °C, runaway machine `Inactive`
with a stale latched target), so the claimed `Inactive → FirstHeating`
transition should fire — but `manage_heater` leaves the machine `Inactive`:
both `thermal_runaway_protection` calls are compiled out
(`ENABLE_ERROR_2A/2B = 0`, thermal.cpp:34-40, 264-266, 291-293). -/
theorem manage_heater_runaway_counterexample :
    runawayProbeState.thermal_runaway_state_machine = TRState.Inactive ∧
    runawayProbeState.tr_target_temperature ≠ runawayProbeState.target_temperature ∧
    0 < runawayProbeState.target_temperature ∧
    ((manage_heater testConfig 1000 runawayProbeState).state).current_temperature <
      runawayProbeState.target_temperature ∧
    ((manage_heater testConfig 1000 runawayProbeState).state).thermal_runaway_state_machine =
      TRState.Inactive := by
  refine ⟨rfl, ?_, ?_, ?_, ?_⟩
  · norm_num [runawayProbeState, baseThermalState]
  · norm_num [runawayProbeState, baseThermalState]
  · norm_num [manage_heater, updateTemperaturesFromRawValues,
      checkAndPublishRawValues, firstTempError, hotendMaxTriggered,
      hotendMinTriggered, bedMaxTriggered, bedMinTriggered, watchHeaterRearm,
      watchBedRearm, start_watching_heater, start_watching_bed, hotendDuty,
      bedTargetZeroOff, bedBangBang, ManageResult.state, testConfig,
      runawayProbeState, baseThermalState]
  · rw [(manage_preserves_runaway testConfig 1000 runawayProbeState).1]
    rfl

/-- Claim C2 (amended): `thermal_runaway_protection` itself implements the
claimed transitions — a freshly set positive target moves `Inactive` to
`FirstHeating` (while still below target), `FirstHeating` falls through to
`Stable` once the current temperature reaches the target (arming the
period timer), and an expired timer while below target-minus-hysteresis
yields `Runaway`, which raises the fatal error — but in this build the
heater manager never invokes it, so `manage_heater` leaves the runaway
machine state, its timer and its latched target unchanged. -/
theorem thermal_runaway_protection_spec :
    (∀ (state : TRState) (timer : ℕ) (trt current target : ℚ)
        (period hyst now : ℕ),
      state = TRState.Inactive → trt ≠ target → 0 < target →
      current < target →
      (thermal_runaway_protection state timer trt current target
          period hyst now).1 = TRState.FirstHeating) ∧
    (∀ (timer : ℕ) (trt current target : ℚ) (period hyst now : ℕ),
      trt = target → target ≤ current →
      (thermal_runaway_protection TRState.FirstHeating timer trt current
          target period hyst now).1 = TRState.Stable ∧
      (thermal_runaway_protection TRState.FirstHeating timer trt current
          target period hyst now).2.1 = now + period * 1000) ∧
    (∀ (timer : ℕ) (trt current target : ℚ) (period hyst now : ℕ),
      trt = target → current < target - (hyst : ℚ) → timer ≤ now →
      (thermal_runaway_protection TRState.Stable timer trt current target
          period hyst now).1 = TRState.Runaway ∧
      (thermal_runaway_protection TRState.Stable timer trt current target
          period hyst now).2.2.2 = true) ∧
    (∀ (cfg : ThermalConfig) (now : ℕ) (s : ThermalState),
      ((manage_heater cfg now s).state).thermal_runaway_state_machine =
          s.thermal_runaway_state_machine ∧
      ((manage_heater cfg now s).state).thermal_runaway_timer =
          s.thermal_runaway_timer ∧
      ((manage_heater cfg now s).state).tr_target_temperature =
          s.tr_target_temperature) := by
  refine ⟨?_, ?_, ?_, fun cfg now s => manage_preserves_runaway cfg now s⟩
  · intro state timer trt current target period hyst now hstate hne h0 hlt
    simp only [thermal_runaway_protection, stableStep, hne, h0, if_true,
      ne_eq, not_false_eq_true, gt_iff_lt]
    simp [hne, h0, not_lt.mpr (le_of_lt hlt), hlt]
  · intro timer trt current target period hyst now heq hge
    subst heq
    have hstable : trt - (hyst : ℚ) ≤ current := by
      have : (0 : ℚ) ≤ (hyst : ℚ) := by positivity
      linarith
    simp only [thermal_runaway_protection, stableStep]
    simp [not_lt.mpr hge, hstable, ge_iff_le]
  · intro timer trt current target period hyst now heq hlt htimer
    subst heq
    have h1 : ¬ (trt - (hyst : ℚ) ≤ current) := not_le.mpr hlt
    simp only [thermal_runaway_protection, stableStep]
    simp [h1, not_lt.mpr htimer, ge_iff_le]

/-- Witness for `thermal_runaway_protection_spec` at concrete temperatures:
setting 200 °C at 25 °C starts `FirstHeating`; reaching 200 °C arms the
`Stable` timer; an expired timer at 190 °C (below 200 − 4) ends in
`Runaway` with the fatal flag. -/
theorem thermal_runaway_protection_spec_witness :
    (thermal_runaway_protection TRState.Inactive 0 0 25 200 40 4 5).1 =
      TRState.FirstHeating ∧
    ((thermal_runaway_protection TRState.FirstHeating 0 200 200 200 40 4 5).1 =
        TRState.Stable ∧
      (thermal_runaway_protection TRState.FirstHeating 0 200 200 200 40 4 5).2.1 =
        5 + 40 * 1000) ∧
    ((thermal_runaway_protection TRState.Stable 3 200 190 200 40 4 5).1 =
        TRState.Runaway ∧
      (thermal_runaway_protection TRState.Stable 3 200 190 200 40 4 5).2.2.2 =
        true) ∧
    ((manage_heater testConfig 7 baseThermalState).state).thermal_runaway_state_machine =
      baseThermalState.thermal_runaway_state_machine := by
  obtain ⟨h1, h2, h3, h4⟩ := thermal_runaway_protection_spec
  exact ⟨h1 TRState.Inactive 0 0 25 200 40 4 5 rfl (by norm_num) (by norm_num)
      (by norm_num),
    h2 0 200 200 200 40 4 5 rfl (by norm_num),
    h3 3 200 190 200 40 4 5 rfl (by norm_num) (by norm_num),
    (h4 testConfig 7 baseThermalState).1⟩

/-- Claim C7: a raw ADC value outside the calibrated min/max window raises
a fatal min/max-temp error for a heater only when that heater has a
positive target; with the target at 0 no min/max error is raised for it
(thermal.cpp:378-402, every trigger conjoins `target > 0`). -/
theorem updateTemperatures_minmax_error_gating (cfg : ThermalConfig)
    (s : ThermalState) (e : TempError) (s' : ThermalState)
    (h : updateTemperaturesFromRawValues cfg s = ManageResult.fatal e s') :
    ((e = TempError.hotendMax ∨ e = TempError.hotendMin) →
      0 < s.target_temperature) ∧
    ((e = TempError.bedMax ∨ e = TempError.bedMin) →
      0 < s.target_temperature_bed) ∧
    (s.target_temperature = 0 →
      e ≠ TempError.hotendMax ∧ e ≠ TempError.hotendMin) ∧
    (s.target_temperature_bed = 0 →
      e ≠ TempError.bedMax ∧ e ≠ TempError.bedMin) := by
  unfold updateTemperaturesFromRawValues at h
  split at h
  · exact absurd h (by simp)
  · unfold checkAndPublishRawValues at h
    split at h
    · rename_i e1 heq
      injection h with h_e h_s
      subst h_e
      unfold firstTempError at heq
      split_ifs at heq with h1 h2 h3 h4
      · injection heq with he1
        subst he1
        have htp : 0 < s.target_temperature := h1.2
        refine ⟨fun _ => htp, ?_, ?_, ?_⟩
        · intro hor
          rcases hor with hh | hh <;> exact TempError.noConfusion hh
        · intro h0
          exact absurd h0 (ne_of_gt htp)
        · intro _
          exact ⟨fun hh => TempError.noConfusion hh,
            fun hh => TempError.noConfusion hh⟩
      · injection heq with he1
        subst he1
        have htp : 0 < s.target_temperature := h2.2.2
        refine ⟨fun _ => htp, ?_, ?_, ?_⟩
        · intro hor
          rcases hor with hh | hh <;> exact TempError.noConfusion hh
        · intro h0
          exact absurd h0 (ne_of_gt htp)
        · intro _
          exact ⟨fun hh => TempError.noConfusion hh,
            fun hh => TempError.noConfusion hh⟩
      · injection heq with he1
        subst he1
        have htp : 0 < s.target_temperature_bed := h3.2
        refine ⟨?_, fun _ => htp, ?_, ?_⟩
        · intro hor
          rcases hor with hh | hh <;> exact TempError.noConfusion hh
        · intro _
          exact ⟨fun hh => TempError.noConfusion hh,
            fun hh => TempError.noConfusion hh⟩
        · intro h0
          exact absurd h0 (ne_of_gt htp)
      · injection heq with he1
        subst he1
        have htp : 0 < s.target_temperature_bed := h4.2
        refine ⟨?_, fun _ => htp, ?_, ?_⟩
        · intro hor
          rcases hor with hh | hh <;> exact TempError.noConfusion hh
        · intro _
          exact ⟨fun hh => TempError.noConfusion hh,
            fun hh => TempError.noConfusion hh⟩
        · intro h0
          exact absurd h0 (ne_of_gt htp)
    · exact absurd h (by simp)

/-- Witness for `updateTemperatures_minmax_error_gating`: raw 1200 past
the calibrated maximum 1000 with target 5 °C raises the hotend max-temp
error, and the target is indeed positive. -/
theorem updateTemperatures_minmax_error_gating_witness :
    updateTemperaturesFromRawValues testConfig hotendMaxProbeState =
      ManageResult.fatal TempError.hotendMax
        { hotendMaxProbeState with interrupt_ready := false } ∧
    0 < hotendMaxProbeState.target_temperature := by
  have h : updateTemperaturesFromRawValues testConfig hotendMaxProbeState =
      ManageResult.fatal TempError.hotendMax
        { hotendMaxProbeState with interrupt_ready := false } := by
    norm_num [updateTemperaturesFromRawValues, checkAndPublishRawValues,
      firstTempError, hotendMaxTriggered, hotendMinTriggered, bedMaxTriggered,
      bedMinTriggered, testConfig, hotendMaxProbeState, baseThermalState]
  exact ⟨h,
    (updateTemperatures_minmax_error_gating testConfig hotendMaxProbeState
        TempError.hotendMax _ h).1 (Or.inl rfl)⟩

end Temperature


/-! Block Builder: `Planner::_buffer_line` (Marlin_main.cpp:4677-5386).
The embedding covers the configuration the spec fixes as the baseline — all
preprocessor-gated variants absent (§9: the core must behave correctly with
all of them absent): no `DISTINCT_E_FACTORS`, `LIN_ADVANCE`,
`PREVENT_COLD_EXTRUSION`/`PREVENT_LENGTHY_EXTRUDE` (4738-4777), CORE
kinematics, `MIXING_EXTRUDER`, `SLOWDOWN` (5069-5083), `ULTRA_LCD`,
`FILAMENT_WIDTH_SENSOR`, `XY_FREQUENCY_LIMIT`, and a single extruder.
Hardware-only effects (stepper enables 4873-4995, fan latch 4860-4862) have
no planner-state counterpart.  The function is modelled up to and including
the head advance and position update (5370-5374), i.e. everything before
the final `recalculate()` / `stepper.wake_up()`. -/

/-- Modelled from the spec where marked: planner configuration.  All fields
are `Planner` statics set by M-codes (planner.h:149-171) except
`min_steps_per_segment` (`MIN_STEPS_PER_SEGMENT`, a configuration macro not
among the sources; the spec only uses it as a drop threshold),
`volumetric_multiplier` / `flow_percentage` (per-extruder factors defined in
Marlin_main.cpp outside the excerpt), and `stepper_isr_enabled`, the value
of `TEST(TIMSK1, OCIE1A)` — whether the stepper timer interrupt is enabled
— read at Marlin_main.cpp:5322. -/
structure PlannerConfig where
  axis_steps_per_mm : Fin 4 → ℚ
  steps_to_mm : Fin 4 → ℚ
  max_feedrate_mm_s : Fin 4 → ℚ
  max_acceleration_steps_per_s2 : Fin 4 → ℕ
  acceleration : ℚ
  retract_acceleration : ℚ
  travel_acceleration : ℚ
  min_feedrate_mm_s : ℚ
  min_travel_feedrate_mm_s : ℚ
  max_jerk : Fin 4 → ℚ
  cutoff_long : ℕ
  volumetric_multiplier : ℚ
  flow_percentage : ℚ
  min_steps_per_segment : ℕ
  stepper_isr_enabled : Bool

namespace Planner

/-- `round<uint24>` (Marlin_main.cpp:4692-4697): round to nearest on the
non-negative targets (`__assume(a >= 0.0f)`), stored in a `uint24`. -/
def round24 (q : ℚ) : ℕ := store24 ⌊q + 1 / 2⌋

/-- The target position in absolute steps (Marlin_main.cpp:4692-4697). -/
def target_steps (cfg : PlannerConfig) (a b c e : ℚ) : Fin 4 → ℕ :=
  ![round24 (a * cfg.axis_steps_per_mm 0),
    round24 (b * cfg.axis_steps_per_mm 1),
    round24 (c * cfg.axis_steps_per_mm 2),
    round24 (e * cfg.axis_steps_per_mm 3)]

/-- Per-axis signed step deltas `da, db, dc, de`
(Marlin_main.cpp:4711-4713, 4746), `int24` values. -/
def step_deltas (s : PlannerState) (target : Fin 4 → ℕ) : Fin 4 → ℤ :=
  fun i => (target i : ℤ) - (s.position i : ℤ)

/-- `esteps_float = de * volumetric_multiplier[extruder] *
flow_percentage[extruder] * 0.01` (Marlin_main.cpp:4806). -/
def esteps_float_of (cfg : PlannerConfig) (de : ℤ) : ℚ :=
  (de : ℚ) * cfg.volumetric_multiplier * cfg.flow_percentage * (1 / 100)

/-- `esteps = uint24(abs(esteps_float) + 0.5)` (Marlin_main.cpp:4807). -/
def esteps_of (cfg : PlannerConfig) (de : ℤ) : ℕ :=
  store24 ⌊|esteps_float_of cfg de| + 1 / 2⌋

/-- `block->steps[]` (Marlin_main.cpp:4841-4846, non-core kinematics). -/
def block_steps (cfg : PlannerConfig) (s : PlannerState)
    (target : Fin 4 → ℕ) : Fin 4 → ℕ :=
  ![(step_deltas s target 0).natAbs,
    (step_deltas s target 1).natAbs,
    (step_deltas s target 2).natAbs,
    esteps_of cfg (step_deltas s target 3)]

/-- `block->step_event_count = max(steps[X], steps[Y], steps[Z], esteps)`
(Marlin_main.cpp:4847). -/
def computed_step_event_count (cfg : PlannerConfig) (s : PlannerState)
    (target : Fin 4 → ℕ) : ℕ :=
  max (max (max (block_steps cfg s target 0) (block_steps cfg s target 1))
        (block_steps cfg s target 2))
    (block_steps cfg s target 3)

/-- `NOMORE(speed_factor, max_feedrate_mm_s[i] / cs)` for one axis
(Marlin_main.cpp:5133-5139). -/
def nomore_speed_factor (maxf cs sf : ℚ) : ℚ :=
  if cs > maxf then min sf (maxf / cs) else sf

/-- `LIMIT_ACCEL_LONG(AXIS, 0)` (Marlin_main.cpp:5195-5200): `uint32`
arithmetic, the division truncating. -/
def limit_accel_long (cfg : PlannerConfig) (steps : Fin 4 → ℕ) (sec : ℕ)
    (accel : ℕ) (i : Fin 4) : ℕ :=
  if steps i ≠ 0 ∧ cfg.max_acceleration_steps_per_s2 i < accel then
    if accel * steps i > cfg.max_acceleration_steps_per_s2 i * sec then
      (cfg.max_acceleration_steps_per_s2 i * sec) / steps i
    else accel
  else accel

/-- `LIMIT_ACCEL_FLOAT(AXIS, 0)` (Marlin_main.cpp:5202-5207): the compare
and divide run in `float`, the result truncated back into `uint32`. -/
def limit_accel_float (cfg : PlannerConfig) (steps : Fin 4 → ℕ) (sec : ℕ)
    (accel : ℕ) (i : Fin 4) : ℕ :=
  if steps i ≠ 0 ∧ cfg.max_acceleration_steps_per_s2 i < accel then
    if (accel : ℚ) * (steps i : ℚ) >
        (cfg.max_acceleration_steps_per_s2 i : ℚ) * (sec : ℚ) then
      (⌊(cfg.max_acceleration_steps_per_s2 i : ℚ) * (sec : ℚ) /
          (steps i : ℚ)⌋).toNat
    else accel
  else accel

/-- One axis of the safe-speed loop (Marlin_main.cpp:5248-5262): `p` is the
running `(safe_speed, limited)` pair. -/
def safe_speed_axis (nominal maxj jerk : ℚ) (p : ℚ × ℕ) : ℚ × ℕ :=
  if jerk > maxj then
    if p.2 ≠ 0 then
      (if jerk * p.1 > maxj * nominal then maxj * nominal / jerk else p.1, p.2)
    else (maxj, p.2 + 1)
  else p

/-- The safe speed: the largest speed from which an immediate halt respects
all per-axis jerk limits (Marlin_main.cpp:5248-5262), with `LOOP_XYZE`
unrolled. -/
def safe_speed_calc (cfg : PlannerConfig) (nominal : ℚ)
    (cs : Fin 4 → ℚ) : ℚ × ℕ :=
  safe_speed_axis nominal (cfg.max_jerk 3) |cs 3|
    (safe_speed_axis nominal (cfg.max_jerk 2) |cs 2|
      (safe_speed_axis nominal (cfg.max_jerk 1) |cs 1|
        (safe_speed_axis nominal (cfg.max_jerk 0) |cs 0| (nominal, 0))))

/-- The per-axis junction jerk, distinguishing coasting from axis reversal
(Marlin_main.cpp:5287-5292). -/
def junction_jerk (v_exit v_entry : ℚ) : ℚ :=
  if v_exit > v_entry then
    (if v_entry > 0 ∨ v_exit < 0 then v_exit - v_entry
     else max v_exit (-v_entry))
  else
    (if v_entry < 0 ∨ v_exit > 0 then v_entry - v_exit
     else max (-v_exit) v_entry)

/-- One axis of the junction jerk-limit loop (Marlin_main.cpp:5278-5298):
`p` is the running `(v_factor, limited)` pair. -/
def junction_axis (maxj v_exit₀ v_entry₀ : ℚ) (prev_speed_larger : Bool)
    (smaller_speed_factor : ℚ) (p : ℚ × ℕ) : ℚ × ℕ :=
  let v_exit₁ :=
    if prev_speed_larger then v_exit₀ * smaller_speed_factor else v_exit₀
  let v_exit := if p.2 ≠ 0 then v_exit₁ * p.1 else v_exit₁
  let v_entry := if p.2 ≠ 0 then v_entry₀ * p.1 else v_entry₀
  let jerk := junction_jerk v_exit v_entry
  if jerk > maxj then (p.1 * (maxj / jerk), p.2 + 1) else p

/-- `vmax_junction` and the START_FROM_FULL_HALT decision
(Marlin_main.cpp:5236-5313).  Returns the junction speed and whether the
block starts from a full halt. -/
def vmax_junction_calc (cfg : PlannerConfig) (s : PlannerState)
    (moves_queued : ℕ) (nominal_speed : ℚ) (cs : Fin 4 → ℚ)
    (safe_speed : ℚ) : ℚ × Bool :=
  if 1 < moves_queued ∧ s.previous_nominal_speed > 1 / 10000 then
    let prev_speed_larger := s.previous_nominal_speed > nominal_speed
    let smaller_speed_factor :=
      if prev_speed_larger then nominal_speed / s.previous_nominal_speed
      else s.previous_nominal_speed / nominal_speed
    let vmax₀ :=
      if prev_speed_larger then nominal_speed else s.previous_nominal_speed
    let p :=
      junction_axis (cfg.max_jerk 3) (s.previous_speed 3) (cs 3)
        prev_speed_larger smaller_speed_factor
        (junction_axis (cfg.max_jerk 2) (s.previous_speed 2) (cs 2)
          prev_speed_larger smaller_speed_factor
          (junction_axis (cfg.max_jerk 1) (s.previous_speed 1) (cs 1)
            prev_speed_larger smaller_speed_factor
            (junction_axis (cfg.max_jerk 0) (s.previous_speed 0) (cs 0)
              prev_speed_larger smaller_speed_factor (1, 0))))
    let vmax₁ := if p.2 ≠ 0 then vmax₀ * p.1 else vmax₀
    if s.previous_safe_speed > vmax₁ * (99 / 100) ∧
        safe_speed > vmax₁ * (99 / 100) then
      (safe_speed, true)
    else (vmax₁, false)
  else (safe_speed, true)

/-- `Planner::_buffer_line` (Marlin_main.cpp:4677-5374) up to the head
advance, in the baseline configuration of the module comment above.  The
ring-full wait (4814) spins in `idle()` until the stepper frees a slot and
only delays admission; the function is modelled at the point the wait ends.
A move below `MIN_STEPS_PER_SEGMENT` bails out at 4850 after the partial
block fields (flags cleared, direction bits, step counts) have been staged
in the ring slot at `head` — which is outside the queued window, so no
block appears. -/
def buffer_line_stage (cfg : PlannerConfig) (s : PlannerState)
    (a b c e fr_mm_s : ℚ) : PlannerState :=
  let target := target_steps cfg a b c e
  let d := step_deltas s target
  let dm : Fin 4 → Bool := fun i => decide (d i < 0)
  let esteps_float := esteps_float_of cfg (d 3)
  let esteps := esteps_of cfg (d 3)
  let next_buffer_head := next_block_index s.block_buffer_head
  let steps := block_steps cfg s target
  let sec := computed_step_event_count cfg s target
  let partialBlock : block_t :=
    { s.block_buffer s.block_buffer_head with
      flag := BlockFlags.clear
      direction_bits := dm
      steps := steps
      step_event_count := sec }
  if sec < cfg.min_steps_per_segment then
    { s with block_buffer :=
        Function.update s.block_buffer s.block_buffer_head partialBlock }
  else
    let fr1 :=
      if esteps ≠ 0 ∧ fr_mm_s < cfg.min_feedrate_mm_s then
        cfg.min_feedrate_mm_s
      else if esteps = 0 ∧ fr_mm_s < cfg.min_travel_feedrate_mm_s then
        cfg.min_travel_feedrate_mm_s
      else fr_mm_s
    let delta_mm : Fin 4 → ℚ :=
      ![(d 0 : ℚ) * cfg.steps_to_mm 0, (d 1 : ℚ) * cfg.steps_to_mm 1,
        (d 2 : ℚ) * cfg.steps_to_mm 2, esteps_float * cfg.steps_to_mm 3]
    let millimeters :=
      if steps 0 < cfg.min_steps_per_segment ∧
          steps 1 < cfg.min_steps_per_segment ∧
          steps 2 < cfg.min_steps_per_segment then
        |delta_mm 3|
      else
        SQRT ((delta_mm 0) ^ 2 + (delta_mm 1) ^ 2 + (delta_mm 2) ^ 2)
    let inverse_millimeters := 1 / millimeters
    let inverse_mm_s := fr1 * inverse_millimeters
    let moves_queued := movesplanned s
    let nominal_speed₀ := millimeters * inverse_mm_s
    let nominal_rate₀ := store24 ⌈(sec : ℚ) * inverse_mm_s⌉
    let cs₀ : Fin 4 → ℚ := fun i => delta_mm i * inverse_mm_s
    let speed_factor :=
      nomore_speed_factor (cfg.max_feedrate_mm_s 3) |cs₀ 3|
        (nomore_speed_factor (cfg.max_feedrate_mm_s 2) |cs₀ 2|
          (nomore_speed_factor (cfg.max_feedrate_mm_s 1) |cs₀ 1|
            (nomore_speed_factor (cfg.max_feedrate_mm_s 0) |cs₀ 0| 1)))
    let current_speed : Fin 4 → ℚ :=
      if speed_factor < 1 then fun i => cs₀ i * speed_factor else cs₀
    let nominal_speed :=
      if speed_factor < 1 then nominal_speed₀ * speed_factor
      else nominal_speed₀
    let nominal_rate :=
      if speed_factor < 1 then store24 ⌊(nominal_rate₀ : ℚ) * speed_factor⌋
      else nominal_rate₀
    let steps_per_mm := (sec : ℚ) * inverse_millimeters
    let accel : ℕ :=
      if steps 0 = 0 ∧ steps 1 = 0 ∧ steps 2 = 0 then
        (⌈cfg.retract_acceleration * steps_per_mm⌉).toNat
      else
        let accel₀ :=
          (⌈(if esteps ≠ 0 then cfg.acceleration
             else cfg.travel_acceleration) * steps_per_mm⌉).toNat
        if sec ≤ cfg.cutoff_long then
          limit_accel_long cfg steps sec
            (limit_accel_long cfg steps sec
              (limit_accel_long cfg steps sec
                (limit_accel_long cfg steps sec accel₀ 0) 1) 2) 3
        else
          limit_accel_float cfg steps sec
            (limit_accel_float cfg steps sec
              (limit_accel_float cfg steps sec
                (limit_accel_float cfg steps sec accel₀ 0) 1) 2) 3
    let acceleration := (accel : ℚ) / steps_per_mm
    let safe := safe_speed_calc cfg nominal_speed current_speed
    let junction :=
      vmax_junction_calc cfg s moves_queued nominal_speed current_speed
        safe.1
    let vmax_junction := junction.1
    let v_allowable := max_allowable_speed (-acceleration) 0 millimeters
    let entry_speed :=
      if cfg.stepper_isr_enabled then (0 : ℚ)
      else min vmax_junction v_allowable
    let newBlock : block_t :=
      { partialBlock with
        flag :=
          { BlockFlags.clear with
            recalculate := true
            nominal_length := decide (nominal_speed ≤ v_allowable)
            start_from_full_halt := junction.2 }
        nominal_speed := nominal_speed
        nominal_rate := nominal_rate
        millimeters := millimeters
        acceleration := acceleration
        acceleration_steps_per_s2 := store24 accel
        entry_speed := entry_speed
        max_entry_speed := vmax_junction }
    { s with
      block_buffer :=
        Function.update s.block_buffer s.block_buffer_head newBlock
      block_buffer_head := next_buffer_head
      position := target
      previous_speed := current_speed
      previous_nominal_speed := nominal_speed
      previous_safe_speed := safe.1 }

end Planner


/-- A concrete planner configuration: 1 step/mm on every axis, max
feedrate 300 mm/s, max acceleration 10000 steps/s², acceleration
50 mm/s², jerk limit 4 mm/s, `MIN_STEPS_PER_SEGMENT` 6, stepper timer
interrupt enabled. -/
def testPlannerConfig : PlannerConfig :=
  { axis_steps_per_mm := fun _ => 1, steps_to_mm := fun _ => 1,
    max_feedrate_mm_s := fun _ => 300,
    max_acceleration_steps_per_s2 := fun _ => 10000,
    acceleration := 50, retract_acceleration := 50, travel_acceleration := 50,
    min_feedrate_mm_s := 0, min_travel_feedrate_mm_s := 0,
    max_jerk := fun _ => 4, cutoff_long := 2147483648,
    volumetric_multiplier := 1, flow_percentage := 100,
    min_steps_per_segment := 6, stepper_isr_enabled := true }

/-- `testPlannerConfig` with the stepper timer interrupt disabled. -/
def testPlannerConfigIsrOff : PlannerConfig :=
  { testPlannerConfig with stepper_isr_enabled := false }

namespace Planner

/-- The blocks currently queued in the ring: the `movesplanned` slots from
`tail` (inclusive) to `head` (exclusive), in order. -/
def queuedBlocks (s : PlannerState) : List block_t :=
  (List.range (movesplanned s)).map fun k =>
    s.block_buffer
      ⟨(s.block_buffer_tail.val + k) % BLOCK_BUFFER_SIZE,
       Nat.mod_lt _ (by norm_num [BLOCK_BUFFER_SIZE])⟩

lemma ring_slot_ne_head (s : PlannerState) (k : ℕ) (hk : k < movesplanned s) :
    (s.block_buffer_tail.val + k) % BLOCK_BUFFER_SIZE ≠
      s.block_buffer_head.val := by
  have h1 := s.block_buffer_head.isLt
  have h2 := s.block_buffer_tail.isLt
  unfold movesplanned BLOCK_MOD at hk
  unfold BLOCK_BUFFER_SIZE at *
  omega

/-- Claim C8: a move whose computed `step_event_count` (the maximum
per-axis absolute step delta) is below `MIN_STEPS_PER_SEGMENT` is dropped
without error: the ring head does not advance, the queued window of the
ring is unchanged (so no block appears), and `position[]`,
`previous_speed[]` and `previous_nominal_speed` are left untouched
(the `return` at Marlin_main.cpp:4850 precedes every one of those updates,
at 5335-5336, 5371 and 5374). -/
theorem buffer_line_drop_spec (cfg : PlannerConfig) (s : PlannerState)
    (a b c e fr : ℚ)
    (h : computed_step_event_count cfg s (target_steps cfg a b c e) <
      cfg.min_steps_per_segment) :
    (buffer_line_stage cfg s a b c e fr).block_buffer_head =
        s.block_buffer_head ∧
    (buffer_line_stage cfg s a b c e fr).position = s.position ∧
    (buffer_line_stage cfg s a b c e fr).previous_speed =
        s.previous_speed ∧
    (buffer_line_stage cfg s a b c e fr).previous_nominal_speed =
        s.previous_nominal_speed ∧
    queuedBlocks (buffer_line_stage cfg s a b c e fr) = queuedBlocks s := by
  unfold buffer_line_stage
  rw [if_pos h]
  refine ⟨rfl, rfl, rfl, rfl, ?_⟩
  unfold queuedBlocks movesplanned
  simp only
  apply List.map_congr_left
  intro k hk
  rw [List.mem_range] at hk
  rw [Function.update_noteq]
  intro hcontra
  have := ring_slot_ne_head s k (by simpa [movesplanned] using hk)
  rw [Fin.ext_iff] at hcontra
  exact this hcontra

/-- Witness for `buffer_line_drop_spec`: a 2-step X move (below the
6-step threshold) into an empty planner leaves head, position and the
queued window untouched. -/
theorem buffer_line_drop_spec_witness :
    computed_step_event_count testPlannerConfig emptyPlanner
        (target_steps testPlannerConfig 2 0 0 0) <
      testPlannerConfig.min_steps_per_segment ∧
    (buffer_line_stage testPlannerConfig emptyPlanner 2 0 0 0 10).block_buffer_head =
      emptyPlanner.block_buffer_head ∧
    (buffer_line_stage testPlannerConfig emptyPlanner 2 0 0 0 10).position =
      emptyPlanner.position ∧
    queuedBlocks (buffer_line_stage testPlannerConfig emptyPlanner 2 0 0 0 10) =
      queuedBlocks emptyPlanner := by
  have h : computed_step_event_count testPlannerConfig emptyPlanner
      (target_steps testPlannerConfig 2 0 0 0) <
      testPlannerConfig.min_steps_per_segment := by
    norm_num [computed_step_event_count, block_steps, target_steps,
      step_deltas, esteps_of, esteps_float_of, round24, store24,
      testPlannerConfig, emptyPlanner, Matrix.cons_val_zero,
      Matrix.cons_val_one, Matrix.cons_val_two, Matrix.cons_val_three,
      Matrix.head_cons, Matrix.tail_cons,
      show Int.toNat 2 = 2 from rfl, show Int.toNat 0 = 0 from rfl]
  obtain ⟨h1, h2, h3, h4, h5⟩ :=
    buffer_line_drop_spec testPlannerConfig emptyPlanner 2 0 0 0 10 h
  exact ⟨h, h1, h2, h5⟩

/-- Claim C6 counterexample: a pure-E 100 mm move at 10 mm/s admitted with
the stepper timer interrupt enabled (the normal running state) gets
`entry_speed = 0`, not the claimed
`min(vmax_junction, max_allowable_speed(-acceleration, 0, millimeters))`,
which evaluates to `min(4, 100) = 4`: the assignment at
Marlin_main.cpp:5322 is `TEST(TIMSK1, OCIE1A) ? 0.0f : min(...)`. -/
theorem buffer_line_entry_speed_counterexample :
    ((buffer_line_stage testPlannerConfig emptyPlanner 0 0 0 100 10).block_buffer
        emptyPlanner.block_buffer_head).entry_speed = 0 ∧
    min ((buffer_line_stage testPlannerConfig emptyPlanner 0 0 0 100 10).block_buffer
          emptyPlanner.block_buffer_head).max_entry_speed
        (max_allowable_speed
          (-((buffer_line_stage testPlannerConfig emptyPlanner 0 0 0 100 10).block_buffer
              emptyPlanner.block_buffer_head).acceleration)
          0
          ((buffer_line_stage testPlannerConfig emptyPlanner 0 0 0 100 10).block_buffer
              emptyPlanner.block_buffer_head).millimeters) = 4 ∧
    ((buffer_line_stage testPlannerConfig emptyPlanner 0 0 0 100 10).block_buffer
        emptyPlanner.block_buffer_head).entry_speed ≠
      min ((buffer_line_stage testPlannerConfig emptyPlanner 0 0 0 100 10).block_buffer
            emptyPlanner.block_buffer_head).max_entry_speed
        (max_allowable_speed
          (-((buffer_line_stage testPlannerConfig emptyPlanner 0 0 0 100 10).block_buffer
              emptyPlanner.block_buffer_head).acceleration)
          0
          ((buffer_line_stage testPlannerConfig emptyPlanner 0 0 0 100 10).block_buffer
              emptyPlanner.block_buffer_head).millimeters) := by
  have hsqrt : SQRT 10000 = 100 := by
    unfold SQRT
    norm_num
    rw [show Int.toNat 10000 = 100 * 100 from rfl, Nat.sqrt_eq]
    norm_num
  have hmain :
      ((buffer_line_stage testPlannerConfig emptyPlanner 0 0 0 100 10).block_buffer
          emptyPlanner.block_buffer_head).entry_speed = 0 ∧
      min ((buffer_line_stage testPlannerConfig emptyPlanner 0 0 0 100 10).block_buffer
            emptyPlanner.block_buffer_head).max_entry_speed
          (max_allowable_speed
            (-((buffer_line_stage testPlannerConfig emptyPlanner 0 0 0 100 10).block_buffer
                emptyPlanner.block_buffer_head).acceleration)
            0
            ((buffer_line_stage testPlannerConfig emptyPlanner 0 0 0 100 10).block_buffer
                emptyPlanner.block_buffer_head).millimeters) = 4 := by
    norm_num [buffer_line_stage, target_steps, step_deltas, esteps_float_of,
      esteps_of, block_steps, computed_step_event_count, round24, store24,
      nomore_speed_factor, limit_accel_long, limit_accel_float,
      safe_speed_calc, safe_speed_axis, vmax_junction_calc, junction_axis,
      junction_jerk, max_allowable_speed, movesplanned, BLOCK_MOD,
      BLOCK_BUFFER_SIZE, next_block_index, Function.update_same,
      testPlannerConfig, emptyPlanner, zeroBlock, BlockFlags.clear,
      Matrix.cons_val_zero, Matrix.cons_val_one, Matrix.cons_val_two,
      Matrix.cons_val_three, Matrix.head_cons, Matrix.tail_cons, hsqrt,
      show Int.toNat 100 = 100 from rfl, show Int.toNat 50 = 50 from rfl]
  refine ⟨hmain.1, hmain.2, ?_⟩
  rw [hmain.1, hmain.2]
  norm_num

/-- Claim C6 (amended): the admitted block's `entry_speed` is
`min(vmax_junction, max_allowable_speed(-acceleration, 0, millimeters))`
— with `vmax_junction` held in `max_entry_speed` (Marlin_main.cpp:5316) —
only when the stepper timer interrupt is disabled (a split-block
admission); with the stepper interrupt enabled, `entry_speed` is set
to `0` (Marlin_main.cpp:5318-5322). -/
theorem buffer_line_entry_speed_spec (cfg : PlannerConfig) (s : PlannerState)
    (a b c e fr : ℚ)
    (h : ¬ (computed_step_event_count cfg s (target_steps cfg a b c e) <
      cfg.min_steps_per_segment)) :
    ((buffer_line_stage cfg s a b c e fr).block_buffer
        s.block_buffer_head).entry_speed =
      (if cfg.stepper_isr_enabled then (0 : ℚ)
       else
        min ((buffer_line_stage cfg s a b c e fr).block_buffer
              s.block_buffer_head).max_entry_speed
          (max_allowable_speed
            (-((buffer_line_stage cfg s a b c e fr).block_buffer
                s.block_buffer_head).acceleration)
            0
            ((buffer_line_stage cfg s a b c e fr).block_buffer
                s.block_buffer_head).millimeters)) := by
  unfold buffer_line_stage
  rw [if_neg h]
  simp only [Function.update_same]

/-- Witness for `buffer_line_entry_speed_spec`: the same 100 mm E move
admitted with the stepper interrupt disabled takes the `min` branch. -/
theorem buffer_line_entry_speed_spec_witness :
    ¬ (computed_step_event_count testPlannerConfigIsrOff emptyPlanner
        (target_steps testPlannerConfigIsrOff 0 0 0 100) <
      testPlannerConfigIsrOff.min_steps_per_segment) ∧
    ((buffer_line_stage testPlannerConfigIsrOff emptyPlanner 0 0 0 100 10).block_buffer
        emptyPlanner.block_buffer_head).entry_speed =
      (if testPlannerConfigIsrOff.stepper_isr_enabled then (0 : ℚ)
       else
        min ((buffer_line_stage testPlannerConfigIsrOff emptyPlanner 0 0 0 100 10).block_buffer
              emptyPlanner.block_buffer_head).max_entry_speed
          (max_allowable_speed
            (-((buffer_line_stage testPlannerConfigIsrOff emptyPlanner 0 0 0 100 10).block_buffer
                emptyPlanner.block_buffer_head).acceleration)
            0
            ((buffer_line_stage testPlannerConfigIsrOff emptyPlanner 0 0 0 100 10).block_buffer
                emptyPlanner.block_buffer_head).millimeters)) := by
  have h : ¬ (computed_step_event_count testPlannerConfigIsrOff emptyPlanner
      (target_steps testPlannerConfigIsrOff 0 0 0 100) <
      testPlannerConfigIsrOff.min_steps_per_segment) := by
    norm_num [computed_step_event_count, block_steps, target_steps,
      step_deltas, esteps_of, esteps_float_of, round24, store24,
      testPlannerConfigIsrOff, testPlannerConfig, emptyPlanner,
      Matrix.cons_val_zero, Matrix.cons_val_one, Matrix.cons_val_two,
      Matrix.cons_val_three, Matrix.head_cons, Matrix.tail_cons,
      show Int.toNat 100 = 100 from rfl, show Int.toNat 0 = 0 from rfl]
  exact ⟨h, buffer_line_entry_speed_spec testPlannerConfigIsrOff emptyPlanner
    0 0 0 100 10 h⟩

end Planner

end Tuna
